import Mathlib

/-!
# Batch builder of the producer path

A shallow embedding of `pulsar/internal/batch_builder.go`: the `BatchBuilder`
record, `NewBatchBuilder`, `IsFull`, `hasSpace`, `Add`, `reset`, `Flush` and
`getCompressionProvider`, as pure functions that pass the builder explicitly.

Conventions of the embedding.

* Go's `uint` is taken 64 bits wide (a 64-bit platform); `uint32(x)` is
  `x % 2 ^ 32`, `int32(x)` is the two's complement reading of the low 32 bits,
  and `numMessages++` is `(numMessages + 1) % 2 ^ 64`.
* A Go slice that may be `nil` is an `Option (List _)`: `none` is `nil`,
  `some []` is an allocated slice of length zero.
* A protobuf optional field (a pointer in Go) is an `Option`.
* The builder holds `cmdSend`, `cmdSend.Send` and `msgMetadata` by pointer; the
  constructor sets all three and nothing reassigns them, so the embedding holds
  them by value. The `metadata` argument of `Add` is likewise held by value.
* `time.Now()` is read by `Add`; the reading is an explicit argument `now`.
-/

namespace Pulsar

/-! ## Machine integers -/

/-- Number of values of Go's `uint` (64-bit platform). -/
def uintRange : Nat := 2 ^ 64

/-- Number of values of `uint32`. -/
def uint32Range : Nat := 2 ^ 32

/-- Go conversion `uint32(x)` of an unsigned value. -/
def toUint32 (n : Nat) : Nat := n % uint32Range

/-- Go conversion `uint64(x)` of a signed 64-bit value. -/
def int64ToUint64 (i : Int) : Nat := (i % (2 ^ 64 : Int)).toNat

/-- Go conversion `int32(x)` of an unsigned value: the low 32 bits, read in
two's complement. -/
def toInt32 (n : Nat) : Int :=
  if n % uint32Range < 2 ^ 31 then ((n % uint32Range : Nat) : Int)
  else ((n % uint32Range : Nat) : Int) - (2 ^ 32 : Int)

/-! ## Constants of the source -/

/-- DefaultMaxBatchSize: default for the maximum number of bytes per batch. -/
def DefaultMaxBatchSize : Nat := 128 * 1024

/-- DefaultMaxMessagesPerBatch: default number of entries per batch. -/
def DefaultMaxMessagesPerBatch : Nat := 1000

/-! ## Collaborators that are not part of the source file -/

/-- Modelled from the spec: the Growable Buffer (interface `Buffer`, declared
outside the source file), "an append-only, resettable byte sequence with a
readable-length counter" that "supports allocation with an initial capacity
hint". `data` is the readable byte sequence, `capacityHint` the hint given at
allocation. -/
structure Buffer where
  data : List UInt8
  capacityHint : Nat
deriving DecidableEq, Repr

/-- Modelled from the spec: `NewBuffer(size)` allocates an empty buffer with an
initial capacity hint. -/
def NewBuffer (size : Nat) : Buffer := { data := [], capacityHint := size }

/-- Modelled from the spec: `ReadableBytes()`, the readable-length counter. The
source compares it with a `uint32` and stores it in a `uint32` field, so the
counter is a `uint32`. -/
def Buffer.ReadableBytes (b : Buffer) : Nat := toUint32 b.data.length

/-- Modelled from the spec: `Clear()` "resets length to zero without releasing
capacity". -/
def Buffer.Clear (b : Buffer) : Buffer := { b with data := [] }

/-- Modelled from the spec: `Write(bytes)`, the append operation, which "never
silently truncates". -/
def Buffer.Write (b : Buffer) (bytes : List UInt8) : Buffer :=
  { b with data := b.data ++ bytes }

/-- The four bytes of a `uint32`, most significant first. -/
def uint32Bytes (n : Nat) : List UInt8 :=
  [UInt8.ofNat (n / 2 ^ 24 % 256), UInt8.ofNat (n / 2 ^ 16 % 256),
   UInt8.ofNat (n / 2 ^ 8 % 256), UInt8.ofNat (n % 256)]

/-- Modelled from the spec: `WriteUint32(n)`, the append of a 4-byte length
field. -/
def Buffer.WriteUint32 (b : Buffer) (n : Nat) : Buffer :=
  b.Write (uint32Bytes (toUint32 n))

/-- Modelled from the spec: the Buffer Pool (interface `BuffersPool`, one method
`GetBuffer`): "obtain a buffer instance ready for writing, or signal none
available". The pool is external, so it is represented by the answers it gives
to the successive `GetBuffer` calls (`none` is the nil answer) and by the number
of `GetBuffer` calls made so far. -/
structure BuffersPool where
  answers : List (Option Buffer)
  requests : Nat
deriving DecidableEq, Repr

/-- Modelled from the spec: one `GetBuffer()` call: the answer and the pool
afterwards. A pool with no answer left yields nil. -/
def BuffersPool.GetBuffer (p : BuffersPool) : Option Buffer × BuffersPool :=
  match p.answers with
  | [] => (none, { p with requests := p.requests + 1 })
  | a :: rest => (a, { answers := rest, requests := p.requests + 1 })

/-- Modelled from the spec: a point in time (`time.Time`), given by the value
of its `UnixNano()`. -/
structure Time where
  unixNano : Int
deriving DecidableEq, Repr

/-- Modelled from the spec: `TimestampMillis(t)`, the timestamp of `t` in
milliseconds as a `uint64`: `uint64(t.UnixNano()) / uint64(time.Millisecond)`. -/
def TimestampMillis (t : Time) : Nat := int64ToUint64 t.unixNano / 1000000

/-- Modelled from the spec: a key/value property (`pb.KeyValue`). -/
structure KeyValue where
  Key : String
  Value : String
deriving DecidableEq, Repr

/-- Modelled from the spec: the per-message metadata header
(`pb.SingleMessageMetadata`): the two fields `Add` copies, and `Marshalled`, the
bytes `proto.Marshal` produces for the message. -/
structure SingleMessageMetadata where
  Properties : Option (List KeyValue)
  PartitionKey : Option String
  Marshalled : List UInt8
deriving DecidableEq, Repr

/-- Modelled from the spec: the compression algorithm identifier
(`pb.CompressionType`); `other` stands for every value that is none of the four
named ones. -/
inductive CompressionType where
  | NONE
  | LZ4
  | ZLIB
  | ZSTD
  | other (code : Int)
deriving DecidableEq, Repr

/-- Modelled from the spec: the quality level of a codec
(`compression.Level`). -/
abbrev Level := Int

/-- Modelled from the spec: the Compression Capability
(`compression.Provider`), "polymorphic over variants None and three concrete
codecs"; each constructor stands for the provider the constructor function of
the same name returns. -/
inductive Provider where
  | NewNoopProvider
  | NewLz4Provider
  | NewZLibProvider
  | NewZStdProvider (level : Level)
deriving DecidableEq, Repr

/-- Modelled from the spec: the batch metadata (`pb.MessageMetadata`), "mutable
per-batch header": the fields the source reads or writes. -/
structure MessageMetadata where
  ProducerName : Option String
  SequenceId : Option Nat
  PublishTime : Option Nat
  ReplicateTo : Option (List String)
  PartitionKey : Option String
  Properties : Option (List KeyValue)
  DeliverAtTime : Option Int
  Compression : Option CompressionType
  NumMessagesInBatch : Option Int
  UncompressedSize : Option Nat
deriving DecidableEq, Repr

/-- Modelled from the spec: the send command (`pb.CommandSend`), "carrying
producer ID, batch sequence ID, and message count". -/
structure CommandSend where
  ProducerId : Option Nat
  SequenceId : Option Nat
  NumMessages : Option Int
deriving DecidableEq, Repr

/-- Modelled from the spec: `GetSequenceId()`, the protobuf getter: the value
of the field, or 0 when the field is absent. -/
def CommandSend.GetSequenceId (c : CommandSend) : Nat := c.SequenceId.getD 0

/-- Modelled from the spec: the kind of a frame header
(`pb.BaseCommand_Type`); the builder only uses `SEND`. -/
inductive BaseCommandType where
  | SEND
deriving DecidableEq, Repr

/-- Modelled from the spec: the outgoing frame header (`pb.BaseCommand`) as
`baseCommand(pb.BaseCommand_SEND, send)` builds it; `Type_` is the field `Type`. -/
structure BaseCommand where
  Type_ : BaseCommandType
  Send : CommandSend
deriving DecidableEq, Repr

/-- Modelled from the spec: `baseCommand(cmdType, msg)` wraps a send command
into a frame header. -/
def baseCommand (cmdType : BaseCommandType) (send : CommandSend) : BaseCommand :=
  { Type_ := cmdType, Send := send }

/-- Modelled from the spec: `addSingleMessageToBatch(wb, smm, payload)`:
"serialize the per-message metadata header followed by the raw payload"
with "length-prefixed framing": the length of the marshalled header as a
`uint32`, the marshalled header, the payload. -/
def addSingleMessageToBatch (wb : Buffer) (smm : SingleMessageMetadata)
    (payload : List UInt8) : Buffer :=
  ((wb.WriteUint32 smm.Marshalled.length).Write smm.Marshalled).Write payload

/-- Modelled from the spec: the frame `serializeBatch(wb, cmdSend, msgMetadata,
uncompressedPayload, compressionProvider)` leaves in `wb`. The serializer is
external, so the frame is represented by the arguments of the call: "frame
header, batch metadata, then the compressed form" of the staged bytes. The
serializer writes to `wb` only: it "produces header + metadata + payload bytes
from the builder's internal state" and leaves that state as it is. -/
structure Frame where
  wb : Buffer
  cmdSend : BaseCommand
  msgMetadata : MessageMetadata
  uncompressedPayload : Buffer
  compressionProvider : Provider
deriving DecidableEq, Repr

/-- Modelled from the spec: `serializeBatch`, see `Frame`. -/
def serializeBatch (wb : Buffer) (cmdSend : BaseCommand) (msgMetadata : MessageMetadata)
    (uncompressedPayload : Buffer) (compressionProvider : Provider) : Frame :=
  { wb := wb, cmdSend := cmdSend, msgMetadata := msgMetadata,
    uncompressedPayload := uncompressedPayload, compressionProvider := compressionProvider }

/-- Outcome of a Go call that may panic instead of returning. -/
inductive GoResult (α : Type) where
  | returned (value : α)
  | panicked (message : String)
deriving DecidableEq, Repr

/-! ## The source -/

/-- BatchBuilder wraps the objects needed to build a batch. The type `κ` is the
type of the callbacks (`interface{}` in the source). -/
structure BatchBuilder (κ : Type) where
  buffer : Buffer
  numMessages : Nat
  maxMessages : Nat
  maxBatchSize : Nat
  producerName : String
  producerID : Nat
  cmdSend : BaseCommand
  msgMetadata : MessageMetadata
  callbacks : Option (List κ)
  compressionProvider : Provider
  buffersPool : BuffersPool
deriving DecidableEq, Repr

/-- The function `getCompressionProvider`: the provider of a compression type;
an unsupported type panics. -/
def getCompressionProvider (compressionType : CompressionType) (level : Level) :
    GoResult Provider :=
  match compressionType with
  | .NONE => .returned .NewNoopProvider
  | .LZ4 => .returned .NewLz4Provider
  | .ZLIB => .returned .NewZLibProvider
  | .ZSTD => .returned (.NewZStdProvider level)
  | .other _ => .panicked "unsupported compression type"

/-- NewBatchBuilder builds a new batch message container: the builder and the
error result (always nil), unless building the compression provider panics. -/
def NewBatchBuilder {κ : Type} (maxMessages : Nat) (maxBatchSize : Nat) (producerName : String)
    (producerID : Nat) (compressionType : CompressionType) (level : Level)
    (bufferPool : BuffersPool) : GoResult (BatchBuilder κ × Option String) :=
  let maxMessages := if maxMessages = 0 then DefaultMaxMessagesPerBatch else maxMessages
  let maxBatchSize := if maxBatchSize = 0 then DefaultMaxBatchSize else maxBatchSize
  match getCompressionProvider compressionType level with
  | .panicked message => .panicked message
  | .returned provider =>
    let bb : BatchBuilder κ :=
      { buffer := NewBuffer 4096
        numMessages := 0
        maxMessages := maxMessages
        maxBatchSize := maxBatchSize
        producerName := producerName
        producerID := producerID
        cmdSend := baseCommand .SEND
          { ProducerId := some producerID, SequenceId := none, NumMessages := none }
        msgMetadata :=
          { ProducerName := some producerName, SequenceId := none, PublishTime := none,
            ReplicateTo := none, PartitionKey := none, Properties := none,
            DeliverAtTime := none, Compression := none, NumMessagesInBatch := none,
            UncompressedSize := none }
        callbacks := some []
        compressionProvider := provider
        buffersPool := bufferPool }
    let bb : BatchBuilder κ :=
      if compressionType ≠ .NONE then
        { bb with msgMetadata := { bb.msgMetadata with Compression := some compressionType } }
      else bb
    .returned (bb, none)

variable {κ : Type}

/-- IsFull checks if the size in the current batch exceeds the maximum size
allowed by the batch. -/
def BatchBuilder.IsFull (bb : BatchBuilder κ) : Bool :=
  decide (bb.numMessages ≥ bb.maxMessages) ||
    decide (bb.buffer.ReadableBytes > toUint32 bb.maxBatchSize)

/-- The method `hasSpace`: true when the batch is not empty and the payload
does not fit any more; the sum is a `uint32` sum. -/
def BatchBuilder.hasSpace (bb : BatchBuilder κ) (payload : List UInt8) : Bool :=
  let msgSize := toUint32 payload.length
  decide (bb.numMessages > 0) &&
    decide ((bb.buffer.ReadableBytes + msgSize) % uint32Range > toUint32 bb.maxBatchSize)

/-- Go's `append(s, x)` on a slice that may be nil. -/
def sliceAppend {α : Type} (s : Option (List α)) (x : α) : Option (List α) :=
  some (s.getD [] ++ [x])

/-- The elements of a Go slice that may be nil. -/
def sliceElems {α : Type} (s : Option (List α)) : List α := s.getD []

/-- Add will add single message to batch: the result and the builder after the
call. -/
def BatchBuilder.Add (bb : BatchBuilder κ) (now : Time) (metadata : SingleMessageMetadata)
    (sequenceID : Nat) (payload : List UInt8) (callback : κ)
    (replicateTo : Option (List String)) (deliverAt : Time) : Bool × BatchBuilder κ :=
  if replicateTo.isSome ∧ bb.numMessages ≠ 0 then
    (false, bb)
  else if bb.msgMetadata.ReplicateTo.isSome then
    (false, bb)
  else if bb.hasSpace payload then
    (false, bb)
  else
    let bb1 : BatchBuilder κ :=
      if bb.numMessages = 0 then
        { bb with
          msgMetadata :=
            { bb.msgMetadata with
              SequenceId := some sequenceID
              PublishTime := some (TimestampMillis now)
              ProducerName := some bb.producerName
              ReplicateTo := replicateTo
              PartitionKey := metadata.PartitionKey
              Properties := metadata.Properties
              DeliverAtTime :=
                if deliverAt.unixNano > 0 then some (TimestampMillis deliverAt : Int)
                else bb.msgMetadata.DeliverAtTime }
          cmdSend :=
            { bb.cmdSend with Send := { bb.cmdSend.Send with SequenceId := some sequenceID } } }
      else bb
    (true,
      { bb1 with
        buffer := addSingleMessageToBatch bb1.buffer metadata payload
        numMessages := (bb1.numMessages + 1) % uintRange
        callbacks := sliceAppend bb1.callbacks callback })

/-- The method `reset`: empty the batch. -/
def BatchBuilder.reset (bb : BatchBuilder κ) : BatchBuilder κ :=
  { bb with
    numMessages := 0
    buffer := bb.buffer.Clear
    callbacks := some []
    msgMetadata := { bb.msgMetadata with ReplicateTo := none } }

/-- The three results of `Flush`; `none` is nil. -/
structure FlushResult (κ : Type) where
  batchData : Option Frame
  sequenceID : Nat
  callbacks : Option (List κ)
deriving DecidableEq, Repr

/-- Flush all the messages buffered in the client: the three results and
the builder after the call. -/
def BatchBuilder.Flush (bb : BatchBuilder κ) : FlushResult κ × BatchBuilder κ :=
  if bb.numMessages = 0 then
    ({ batchData := none, sequenceID := 0, callbacks := none }, bb)
  else
    let msgMetadata1 : MessageMetadata :=
      { bb.msgMetadata with NumMessagesInBatch := some (toInt32 bb.numMessages) }
    let cmdSend1 : BaseCommand :=
      { bb.cmdSend with
        Send := { bb.cmdSend.Send with NumMessages := some (toInt32 bb.numMessages) } }
    let uncompressedSize := bb.buffer.ReadableBytes
    let msgMetadata2 : MessageMetadata :=
      { msgMetadata1 with UncompressedSize := some uncompressedSize }
    let got := bb.buffersPool.GetBuffer
    let buffer : Buffer :=
      match got.1 with
      | some b => b
      | none => NewBuffer (uncompressedSize * 3 % uint32Range / 2)
    let frame :=
      serializeBatch buffer cmdSend1 msgMetadata2 bb.buffer bb.compressionProvider
    let bb1 : BatchBuilder κ :=
      { bb with msgMetadata := msgMetadata2, cmdSend := cmdSend1, buffersPool := got.2 }
    ({ batchData := some frame, sequenceID := cmdSend1.Send.GetSequenceId,
       callbacks := bb.callbacks },
      bb1.reset)

/-! ## Call sequences -/

/-- The arguments of one `Add` call, with the clock reading of that call. -/
structure AddCall (κ : Type) where
  now : Time
  metadata : SingleMessageMetadata
  sequenceID : Nat
  payload : List UInt8
  callback : κ
  replicateTo : Option (List String)
  deliverAt : Time
deriving DecidableEq, Repr

/-- One `Add` call with the arguments of `c`. -/
def BatchBuilder.addCall (bb : BatchBuilder κ) (c : AddCall κ) : Bool × BatchBuilder κ :=
  bb.Add c.now c.metadata c.sequenceID c.payload c.callback c.replicateTo c.deliverAt

/-- The builder after a sequence of `Add` calls. -/
def BatchBuilder.addAll (bb : BatchBuilder κ) : List (AddCall κ) → BatchBuilder κ
  | [] => bb
  | c :: cs => BatchBuilder.addAll (bb.addCall c).2 cs

/-- The calls of a sequence of `Add` calls that return true, in call order. -/
def BatchBuilder.accepted (bb : BatchBuilder κ) : List (AddCall κ) → List (AddCall κ)
  | [] => []
  | c :: cs =>
    if (bb.addCall c).1 then c :: BatchBuilder.accepted (bb.addCall c).2 cs
    else BatchBuilder.accepted (bb.addCall c).2 cs

/-- A call on the builder that changes it: `Add` or `Flush`. -/
inductive Op (κ : Type) where
  | add (c : AddCall κ)
  | flush
deriving DecidableEq, Repr

/-- The builder after one call. -/
def BatchBuilder.step (bb : BatchBuilder κ) : Op κ → BatchBuilder κ
  | .add c => (bb.addCall c).2
  | .flush => bb.Flush.2

/-- The builder after a sequence of calls. -/
def BatchBuilder.run (bb : BatchBuilder κ) : List (Op κ) → BatchBuilder κ
  | [] => bb
  | op :: ops => BatchBuilder.run (bb.step op) ops

/-- A history after which a batch starts: no call yet (construction), or a
history whose last call is a `Flush`. -/
def batchStart : List (Op κ) → Bool
  | [] => true
  | [.flush] => true
  | [.add _] => false
  | _ :: op :: ops => batchStart (op :: ops)

/-- The limits and the producer identity of a builder: `maxMessages`,
`maxBatchSize`, `producerName`, `producerID`, and the producer ID carried in
the send command. -/
def BatchBuilder.limitsAndIdentity (bb : BatchBuilder κ) :
    Nat × Nat × String × Nat × Option Nat :=
  (bb.maxMessages, bb.maxBatchSize, bb.producerName, bb.producerID,
    bb.cmdSend.Send.ProducerId)

/-! ## Examples used to evaluate the definitions -/

/-- A message header without key and properties whose marshalled form has two
bytes. -/
def exampleMetadata : SingleMessageMetadata :=
  { Properties := none, PartitionKey := none, Marshalled := [24, 0] }

/-- An `Add` call with an empty payload, the given sequence ID, callback and
replication list, and no delivery time. -/
def exampleCall (sequenceID : Nat) (callback : Nat) (replicateTo : Option (List String)) :
    AddCall Nat :=
  { now := ⟨1000000⟩, metadata := exampleMetadata, sequenceID := sequenceID, payload := [],
    callback := callback, replicateTo := replicateTo, deliverAt := ⟨0⟩ }

/-- The builder `NewBatchBuilder(maxMessages, maxBatchSize, "p", 7, NONE, 0, pool)`
with a pool that has nothing to give, as a value. -/
def exampleBuilder (maxMessages maxBatchSize : Nat) : BatchBuilder Nat :=
  match NewBatchBuilder maxMessages maxBatchSize "p" 7 .NONE 0 ⟨[], 0⟩ with
  | .returned r => r.1
  | .panicked _ =>
    { buffer := NewBuffer 0, numMessages := 0, maxMessages := 0, maxBatchSize := 0,
      producerName := "", producerID := 0,
      cmdSend := baseCommand .SEND ⟨none, none, none⟩,
      msgMetadata := ⟨none, none, none, none, none, none, none, none, none, none⟩,
      callbacks := none, compressionProvider := .NewNoopProvider, buffersPool := ⟨[], 0⟩ }

/-! ## Lemmas on single calls -/

theorem one_lt_uintRange : 1 < uintRange := by
  unfold uintRange; norm_num

theorem addCall_rejected (bb : BatchBuilder κ) (c : AddCall κ) (h : (bb.addCall c).1 = false) :
    (bb.addCall c).2 = bb := by
  unfold BatchBuilder.addCall BatchBuilder.Add at h ⊢
  split_ifs at h ⊢ <;> rfl

theorem addCall_accepted_iff (bb : BatchBuilder κ) (c : AddCall κ) :
    (bb.addCall c).1 = true ↔
      ¬ (c.replicateTo.isSome = true ∧ bb.numMessages ≠ 0) ∧
        bb.msgMetadata.ReplicateTo.isSome = false ∧ bb.hasSpace c.payload = false := by
  unfold BatchBuilder.addCall BatchBuilder.Add
  split_ifs with h1 h2 h3 <;> simp_all

theorem addCall_accepted_numMessages (bb : BatchBuilder κ) (c : AddCall κ)
    (h : (bb.addCall c).1 = true) :
    (bb.addCall c).2.numMessages = (bb.numMessages + 1) % uintRange := by
  unfold BatchBuilder.addCall BatchBuilder.Add at h ⊢
  split_ifs at h ⊢ <;> rfl

theorem addCall_accepted_callbacks (bb : BatchBuilder κ) (c : AddCall κ)
    (h : (bb.addCall c).1 = true) :
    (bb.addCall c).2.callbacks = sliceAppend bb.callbacks c.callback := by
  unfold BatchBuilder.addCall BatchBuilder.Add at h ⊢
  split_ifs at h ⊢ <;> rfl

theorem addCall_accepted_first_cmdSend (bb : BatchBuilder κ) (c : AddCall κ)
    (h : (bb.addCall c).1 = true) (h0 : bb.numMessages = 0) :
    (bb.addCall c).2.cmdSend.Send.SequenceId = some c.sequenceID := by
  unfold BatchBuilder.addCall BatchBuilder.Add at h ⊢
  split_ifs at h ⊢ <;> rfl

theorem addCall_accepted_first_replicateTo (bb : BatchBuilder κ) (c : AddCall κ)
    (h : (bb.addCall c).1 = true) (h0 : bb.numMessages = 0) :
    (bb.addCall c).2.msgMetadata.ReplicateTo = c.replicateTo := by
  unfold BatchBuilder.addCall BatchBuilder.Add at h ⊢
  split_ifs at h ⊢ <;> rfl

theorem addCall_accepted_later (bb : BatchBuilder κ) (c : AddCall κ)
    (h : (bb.addCall c).1 = true) (h0 : bb.numMessages ≠ 0) :
    (bb.addCall c).2.cmdSend = bb.cmdSend ∧ (bb.addCall c).2.msgMetadata = bb.msgMetadata := by
  unfold BatchBuilder.addCall BatchBuilder.Add at h ⊢
  split_ifs at h ⊢
  exact ⟨rfl, rfl⟩

theorem addCall_limits (bb : BatchBuilder κ) (c : AddCall κ) :
    (bb.addCall c).2.maxMessages = bb.maxMessages ∧
      (bb.addCall c).2.maxBatchSize = bb.maxBatchSize := by
  unfold BatchBuilder.addCall BatchBuilder.Add
  split_ifs <;> exact ⟨rfl, rfl⟩

theorem Flush_numMessages (bb : BatchBuilder κ) : bb.Flush.2.numMessages = 0 := by
  unfold BatchBuilder.Flush
  split_ifs with h
  · exact h
  · rfl

theorem Flush_limits (bb : BatchBuilder κ) :
    bb.Flush.2.maxMessages = bb.maxMessages ∧ bb.Flush.2.maxBatchSize = bb.maxBatchSize := by
  unfold BatchBuilder.Flush
  split_ifs <;> exact ⟨rfl, rfl⟩

theorem Flush_empty (bb : BatchBuilder κ) (h : bb.numMessages = 0) :
    bb.Flush = ({ batchData := none, sequenceID := 0, callbacks := none }, bb) := by
  unfold BatchBuilder.Flush
  rw [if_pos h]

theorem Flush_nonempty_result (bb : BatchBuilder κ) (h : bb.numMessages ≠ 0) :
    bb.Flush.1.sequenceID = bb.cmdSend.Send.GetSequenceId ∧
      bb.Flush.1.callbacks = bb.callbacks := by
  unfold BatchBuilder.Flush
  rw [if_neg h]
  exact ⟨rfl, rfl⟩

theorem Flush_nonempty_state (bb : BatchBuilder κ) (h : bb.numMessages ≠ 0) :
    bb.Flush.2.buffer.data = [] ∧ bb.Flush.2.callbacks = some [] ∧
      bb.Flush.2.msgMetadata.ReplicateTo = none := by
  unfold BatchBuilder.Flush
  rw [if_neg h]
  exact ⟨rfl, rfl, rfl⟩

theorem NewBatchBuilder_returned (maxMessages maxBatchSize : Nat) (producerName : String)
    (producerID : Nat) (compressionType : CompressionType) (level : Level)
    (bufferPool : BuffersPool) (bb : BatchBuilder κ) (err : Option String)
    (h : NewBatchBuilder maxMessages maxBatchSize producerName producerID compressionType level
      bufferPool = .returned (bb, err)) :
    bb.numMessages = 0 ∧ bb.callbacks = some [] ∧ bb.msgMetadata.ReplicateTo = none ∧
      bb.buffer.data = [] ∧ bb.maxMessages ≠ 0 ∧ bb.maxBatchSize ≠ 0 ∧ err = none := by
  unfold NewBatchBuilder at h
  cases compressionType <;> simp only [getCompressionProvider] at h
  all_goals first
    | (injection h with h
       injection h with hb he
       subst hb
       subst he
       refine ⟨rfl, rfl, rfl, rfl, ?_, ?_, rfl⟩ <;>
         simp [DefaultMaxMessagesPerBatch, DefaultMaxBatchSize] <;>
         split_ifs <;> simp_all)
    | exact absurd h (by simp)

/-! ## Lemmas on call sequences -/

theorem run_batchStart_nonempty :
    ∀ (ops : List (Op κ)) (s : BatchBuilder κ), ops ≠ [] → batchStart ops = true →
      (s.run ops).numMessages = 0
  | [], _, h, _ => absurd rfl h
  | [.flush], s, _, _ => Flush_numMessages s
  | [.add _], _, _, h => by simp [batchStart] at h
  | _ :: op :: ops, s, _, h =>
    run_batchStart_nonempty (op :: ops) _ (by simp) (by simpa [batchStart] using h)

theorem run_batchStart (ops : List (Op κ)) (s : BatchBuilder κ) (h0 : s.numMessages = 0)
    (h : batchStart ops = true) : (s.run ops).numMessages = 0 := by
  cases ops with
  | nil => exact h0
  | cons op ops => exact run_batchStart_nonempty (op :: ops) s (by simp) h

theorem addAll_later_cmdSend :
    ∀ (cs : List (AddCall κ)) (s : BatchBuilder κ), s.numMessages ≠ 0 →
      s.numMessages + cs.length < uintRange →
      (s.addAll cs).cmdSend = s.cmdSend ∧ (s.addAll cs).numMessages ≠ 0
  | [], _, h0, _ => ⟨rfl, h0⟩
  | c :: cs, s, h0, hlen => by
    simp only [List.length_cons] at hlen
    show ((s.addCall c).2.addAll cs).cmdSend = s.cmdSend ∧
      ((s.addCall c).2.addAll cs).numMessages ≠ 0
    cases hacc : (s.addCall c).1 with
    | false =>
      rw [addCall_rejected s c hacc]
      exact addAll_later_cmdSend cs s h0 (by omega)
    | true =>
      have hn := addCall_accepted_numMessages s c hacc
      rw [Nat.mod_eq_of_lt (by omega)] at hn
      have ih := addAll_later_cmdSend cs (s.addCall c).2 (by omega) (by omega)
      exact ⟨ih.1.trans (addCall_accepted_later s c hacc h0).1, ih.2⟩

theorem addAll_first_cmdSend :
    ∀ (cs : List (AddCall κ)) (s : BatchBuilder κ) (first : AddCall κ) (rest : List (AddCall κ)),
      s.numMessages = 0 → cs.length < uintRange → s.accepted cs = first :: rest →
      (s.addAll cs).cmdSend.Send.SequenceId = some first.sequenceID ∧
        (s.addAll cs).numMessages ≠ 0
  | [], _, _, _, _, _, hacc => by simp [BatchBuilder.accepted] at hacc
  | c :: cs, s, first, rest, h0, hlen, hacc => by
    simp only [List.length_cons] at hlen
    show ((s.addCall c).2.addAll cs).cmdSend.Send.SequenceId = some first.sequenceID ∧
      ((s.addCall c).2.addAll cs).numMessages ≠ 0
    cases hc : (s.addCall c).1 with
    | false =>
      simp only [BatchBuilder.accepted, hc] at hacc
      rw [addCall_rejected s c hc] at hacc ⊢
      exact addAll_first_cmdSend cs s first rest h0 (by omega) (by simpa using hacc)
    | true =>
      simp only [BatchBuilder.accepted, hc, if_true] at hacc
      injection hacc with hfirst _
      subst hfirst
      have hn := addCall_accepted_numMessages s c hc
      rw [h0, Nat.zero_add, Nat.mod_eq_of_lt one_lt_uintRange] at hn
      have ih := addAll_later_cmdSend cs (s.addCall c).2 (by omega) (by omega)
      rw [ih.1]
      exact ⟨addCall_accepted_first_cmdSend s c hc h0, ih.2⟩

theorem sliceElems_sliceAppend {α : Type} (s : Option (List α)) (x : α) :
    sliceElems (sliceAppend s x) = sliceElems s ++ [x] := rfl

theorem addCall_count (s : BatchBuilder κ) (c : AddCall κ)
    (hinv : s.numMessages = (sliceElems s.callbacks).length)
    (hlen : (sliceElems s.callbacks).length + 1 < uintRange) :
    (s.addCall c).2.numMessages = (sliceElems (s.addCall c).2.callbacks).length ∧
      (sliceElems (s.addCall c).2.callbacks).length ≤ (sliceElems s.callbacks).length + 1 := by
  cases hc : (s.addCall c).1 with
  | false =>
    rw [addCall_rejected s c hc]
    exact ⟨hinv, Nat.le_succ _⟩
  | true =>
    rw [addCall_accepted_numMessages s c hc, addCall_accepted_callbacks s c hc,
      sliceElems_sliceAppend, List.length_append, List.length_singleton, hinv,
      Nat.mod_eq_of_lt hlen]
    exact ⟨rfl, le_refl _⟩

theorem Flush_count (s : BatchBuilder κ)
    (hinv : s.numMessages = (sliceElems s.callbacks).length) :
    s.Flush.2.numMessages = (sliceElems s.Flush.2.callbacks).length ∧
      (sliceElems s.Flush.2.callbacks).length ≤ (sliceElems s.callbacks).length := by
  by_cases h : s.numMessages = 0
  · rw [Flush_empty s h]
    exact ⟨hinv, le_refl _⟩
  · rw [Flush_numMessages, (Flush_nonempty_state s h).2.1]
    exact ⟨rfl, Nat.zero_le _⟩

theorem run_count :
    ∀ (ops : List (Op κ)) (s : BatchBuilder κ),
      s.numMessages = (sliceElems s.callbacks).length →
      (sliceElems s.callbacks).length + ops.length < uintRange →
      (s.run ops).numMessages = (sliceElems (s.run ops).callbacks).length ∧
        (sliceElems (s.run ops).callbacks).length ≤ (sliceElems s.callbacks).length + ops.length
  | [], _, hinv, _ => ⟨hinv, le_refl _⟩
  | op :: ops, s, hinv, hlen => by
    simp only [List.length_cons] at hlen ⊢
    show ((s.step op).run ops).numMessages = (sliceElems ((s.step op).run ops).callbacks).length ∧
      (sliceElems ((s.step op).run ops).callbacks).length ≤
        (sliceElems s.callbacks).length + (ops.length + 1)
    have hstep : (s.step op).numMessages = (sliceElems (s.step op).callbacks).length ∧
        (sliceElems (s.step op).callbacks).length ≤ (sliceElems s.callbacks).length + 1 := by
      cases op with
      | add c => exact addCall_count s c hinv (by omega)
      | flush => exact ⟨(Flush_count s hinv).1, le_trans (Flush_count s hinv).2 (Nat.le_succ _)⟩
    have ih := run_count ops (s.step op) hstep.1 (by omega)
    exact ⟨ih.1, by omega⟩

theorem addAll_callbacks :
    ∀ (cs : List (AddCall κ)) (s : BatchBuilder κ),
      s.numMessages = (sliceElems s.callbacks).length →
      (sliceElems s.callbacks).length + cs.length < uintRange →
      sliceElems (s.addAll cs).callbacks =
          sliceElems s.callbacks ++ (s.accepted cs).map (fun c => c.callback) ∧
        (s.addAll cs).numMessages = (sliceElems (s.addAll cs).callbacks).length
  | [], s, hinv, _ => by simp [BatchBuilder.addAll, BatchBuilder.accepted, hinv]
  | c :: cs, s, hinv, hlen => by
    simp only [List.length_cons] at hlen
    have hstep := addCall_count s c hinv (by omega)
    have ih := addAll_callbacks cs (s.addCall c).2 hstep.1 (by omega)
    show sliceElems ((s.addCall c).2.addAll cs).callbacks =
        sliceElems s.callbacks ++ (s.accepted (c :: cs)).map (fun c => c.callback) ∧
      ((s.addCall c).2.addAll cs).numMessages =
        (sliceElems ((s.addCall c).2.addAll cs).callbacks).length
    refine ⟨?_, ih.2⟩
    rw [ih.1]
    cases hc : (s.addCall c).1 with
    | false =>
      simp only [BatchBuilder.accepted, hc]
      rw [addCall_rejected s c hc]
      simp
    | true =>
      simp only [BatchBuilder.accepted, hc, if_true]
      rw [addCall_accepted_callbacks s c hc, sliceElems_sliceAppend]
      simp

theorem addCall_blocked (s : BatchBuilder κ) (c : AddCall κ)
    (h : s.msgMetadata.ReplicateTo ≠ none) : (s.addCall c).1 = false := by
  cases hc : (s.addCall c).1 with
  | false => rfl
  | true =>
    have := ((addCall_accepted_iff s c).mp hc).2.1
    cases hr : s.msgMetadata.ReplicateTo with
    | none => exact absurd hr h
    | some l => rw [hr] at this; simp at this

theorem addAll_blocked :
    ∀ (cs : List (AddCall κ)) (s : BatchBuilder κ), s.msgMetadata.ReplicateTo ≠ none →
      s.addAll cs = s
  | [], _, _ => rfl
  | c :: cs, s, h => by
    show (s.addCall c).2.addAll cs = s
    rw [addCall_rejected s c (addCall_blocked s c h)]
    exact addAll_blocked cs s h

theorem addCall_replicate_inv (s : BatchBuilder κ) (c : AddCall κ)
    (hinv : s.numMessages = 0 → s.msgMetadata.ReplicateTo = none) :
    (s.addCall c).2.numMessages = 0 → (s.addCall c).2.msgMetadata.ReplicateTo = none := by
  cases hc : (s.addCall c).1 with
  | false =>
    rw [addCall_rejected s c hc]
    exact hinv
  | true =>
    intro hz
    by_cases h0 : s.numMessages = 0
    · rw [addCall_accepted_numMessages s c hc, h0, Nat.zero_add,
        Nat.mod_eq_of_lt one_lt_uintRange] at hz
      exact absurd hz one_ne_zero
    · rw [(addCall_accepted_later s c hc h0).2]
      have := ((addCall_accepted_iff s c).mp hc).2.1
      cases hr : s.msgMetadata.ReplicateTo with
      | none => rfl
      | some l => rw [hr] at this; simp at this

theorem Flush_replicate_inv (s : BatchBuilder κ)
    (hinv : s.numMessages = 0 → s.msgMetadata.ReplicateTo = none) :
    s.Flush.2.msgMetadata.ReplicateTo = none := by
  by_cases h : s.numMessages = 0
  · rw [Flush_empty s h]
    exact hinv h
  · exact (Flush_nonempty_state s h).2.2

theorem run_replicate_inv :
    ∀ (ops : List (Op κ)) (s : BatchBuilder κ),
      (s.numMessages = 0 → s.msgMetadata.ReplicateTo = none) →
      (s.run ops).numMessages = 0 → (s.run ops).msgMetadata.ReplicateTo = none
  | [], _, hinv => hinv
  | op :: ops, s, hinv => by
    show ((s.step op).run ops).numMessages = 0 → ((s.step op).run ops).msgMetadata.ReplicateTo = none
    apply run_replicate_inv ops (s.step op)
    cases op with
    | add c => exact addCall_replicate_inv s c hinv
    | flush => exact fun _ => Flush_replicate_inv s hinv

theorem run_limits :
    ∀ (ops : List (Op κ)) (s : BatchBuilder κ),
      (s.run ops).maxMessages = s.maxMessages ∧ (s.run ops).maxBatchSize = s.maxBatchSize
  | [], _ => ⟨rfl, rfl⟩
  | op :: ops, s => by
    show ((s.step op).run ops).maxMessages = s.maxMessages ∧
      ((s.step op).run ops).maxBatchSize = s.maxBatchSize
    have ih := run_limits ops (s.step op)
    have hstep : (s.step op).maxMessages = s.maxMessages ∧
        (s.step op).maxBatchSize = s.maxBatchSize := by
      cases op with
      | add c => exact addCall_limits s c
      | flush => exact Flush_limits s
    exact ⟨ih.1.trans hstep.1, ih.2.trans hstep.2⟩

theorem hasSpace_empty (s : BatchBuilder κ) (payload : List UInt8) (h : s.numMessages = 0) :
    s.hasSpace payload = false := by
  simp [BatchBuilder.hasSpace, h]

theorem accepted_length_le :
    ∀ (cs : List (AddCall κ)) (s : BatchBuilder κ), (s.accepted cs).length ≤ cs.length
  | [], _ => Nat.le_refl _
  | c :: cs, s => by
    have ih := accepted_length_le cs (s.addCall c).2
    cases hc : (s.addCall c).1 <;> simp [BatchBuilder.accepted, hc] <;> omega

theorem addAll_numMessages :
    ∀ (cs : List (AddCall κ)) (s : BatchBuilder κ), s.numMessages + cs.length < uintRange →
      (s.addAll cs).numMessages = s.numMessages + (s.accepted cs).length
  | [], _, _ => rfl
  | c :: cs, s, hlen => by
    simp only [List.length_cons] at hlen
    show ((s.addCall c).2.addAll cs).numMessages = s.numMessages + (s.accepted (c :: cs)).length
    cases hc : (s.addCall c).1 with
    | false =>
      simp only [BatchBuilder.accepted, hc]
      rw [addCall_rejected s c hc]
      exact addAll_numMessages cs s (by omega)
    | true =>
      simp only [BatchBuilder.accepted, hc, if_true, List.length_cons]
      have hn := addCall_accepted_numMessages s c hc
      rw [Nat.mod_eq_of_lt (by omega)] at hn
      rw [addAll_numMessages cs (s.addCall c).2 (by omega), hn]
      omega

theorem NewBatchBuilder_fields (maxMessages maxBatchSize : Nat) (producerName : String)
    (producerID : Nat) (compressionType : CompressionType) (level : Level)
    (bufferPool : BuffersPool) (bb : BatchBuilder κ) (err : Option String)
    (h : NewBatchBuilder maxMessages maxBatchSize producerName producerID compressionType level
      bufferPool = .returned (bb, err)) :
    bb.maxMessages = (if maxMessages = 0 then 1000 else maxMessages) ∧
      bb.maxBatchSize = (if maxBatchSize = 0 then 131072 else maxBatchSize) ∧
      bb.producerName = producerName ∧ bb.producerID = producerID ∧
      bb.cmdSend.Send.ProducerId = some producerID ∧
      bb.msgMetadata.ProducerName = some producerName := by
  unfold NewBatchBuilder at h
  cases compressionType <;> simp only [getCompressionProvider] at h
  all_goals first
    | (injection h with h
       injection h with hb he
       subst hb
       exact ⟨rfl, rfl, rfl, rfl, rfl, rfl⟩)
    | exact absurd h (by simp)

theorem Add_limitsAndIdentity (s : BatchBuilder κ) (now : Time)
    (metadata : SingleMessageMetadata) (sequenceID : Nat) (payload : List UInt8) (callback : κ)
    (replicateTo : Option (List String)) (deliverAt : Time) :
    (s.Add now metadata sequenceID payload callback replicateTo deliverAt).2.limitsAndIdentity =
      s.limitsAndIdentity := by
  unfold BatchBuilder.Add
  split_ifs <;> rfl

theorem Flush_limitsAndIdentity (s : BatchBuilder κ) :
    s.Flush.2.limitsAndIdentity = s.limitsAndIdentity := by
  unfold BatchBuilder.Flush
  split_ifs <;> rfl

theorem run_limitsAndIdentity :
    ∀ (ops : List (Op κ)) (s : BatchBuilder κ),
      (s.run ops).limitsAndIdentity = s.limitsAndIdentity
  | [], _ => rfl
  | op :: ops, s => by
    show ((s.step op).run ops).limitsAndIdentity = s.limitsAndIdentity
    rw [run_limitsAndIdentity ops (s.step op)]
    cases op with
    | add c => exact Add_limitsAndIdentity s _ _ _ _ _ _ _
    | flush => exact Flush_limitsAndIdentity s

theorem addCall_producerName (s : BatchBuilder κ) (c : AddCall κ)
    (hinv : s.msgMetadata.ProducerName = some s.producerName) :
    (s.addCall c).2.msgMetadata.ProducerName = some (s.addCall c).2.producerName := by
  unfold BatchBuilder.addCall BatchBuilder.Add
  split_ifs <;> first | exact hinv | rfl

theorem Flush_producerName (s : BatchBuilder κ)
    (hinv : s.msgMetadata.ProducerName = some s.producerName) :
    s.Flush.2.msgMetadata.ProducerName = some s.Flush.2.producerName := by
  unfold BatchBuilder.Flush
  split_ifs <;> exact hinv

theorem run_producerName :
    ∀ (ops : List (Op κ)) (s : BatchBuilder κ),
      s.msgMetadata.ProducerName = some s.producerName →
      (s.run ops).msgMetadata.ProducerName = some (s.run ops).producerName
  | [], _, hinv => hinv
  | op :: ops, s, hinv => by
    show ((s.step op).run ops).msgMetadata.ProducerName = some ((s.step op).run ops).producerName
    apply run_producerName ops (s.step op)
    cases op with
    | add c => exact addCall_producerName s c hinv
    | flush => exact Flush_producerName s hinv

theorem Flush_nonempty_frame (s : BatchBuilder κ) (h : s.numMessages ≠ 0) :
    ∃ frame : Frame, s.Flush.1.batchData = some frame ∧
      frame.cmdSend =
        { s.cmdSend with
          Send := { s.cmdSend.Send with NumMessages := some (toInt32 s.numMessages) } } ∧
      frame.msgMetadata =
        { s.msgMetadata with
          NumMessagesInBatch := some (toInt32 s.numMessages)
          UncompressedSize := some s.buffer.ReadableBytes } ∧
      frame.uncompressedPayload = s.buffer ∧
      frame.compressionProvider = s.compressionProvider := by
  unfold BatchBuilder.Flush
  rw [if_neg h]
  exact ⟨_, rfl, rfl, rfl, rfl, rfl⟩

theorem Flush_frame_nonempty (s : BatchBuilder κ) (frame : Frame)
    (h : s.Flush.1.batchData = some frame) : s.numMessages ≠ 0 := by
  intro h0
  rw [Flush_empty s h0] at h
  exact Option.noConfusion h

theorem addCall_replicated_alone (s : BatchBuilder κ) (c : AddCall κ)
    (hinv : s.msgMetadata.ReplicateTo ≠ none → s.numMessages = 1) :
    (s.addCall c).2.msgMetadata.ReplicateTo ≠ none → (s.addCall c).2.numMessages = 1 := by
  cases hc : (s.addCall c).1 with
  | false =>
    rw [addCall_rejected s c hc]
    exact hinv
  | true =>
    intro hrep
    by_cases h0 : s.numMessages = 0
    · rw [addCall_accepted_numMessages s c hc, h0, Nat.zero_add,
        Nat.mod_eq_of_lt one_lt_uintRange]
    · rw [(addCall_accepted_later s c hc h0).2] at hrep
      have := ((addCall_accepted_iff s c).mp hc).2.1
      cases hr : s.msgMetadata.ReplicateTo with
      | none => exact absurd hr hrep
      | some l => rw [hr] at this; simp at this

theorem Flush_replicated_alone (s : BatchBuilder κ)
    (hinv : s.msgMetadata.ReplicateTo ≠ none → s.numMessages = 1) :
    s.Flush.2.msgMetadata.ReplicateTo ≠ none → s.Flush.2.numMessages = 1 := by
  by_cases h : s.numMessages = 0
  · rw [Flush_empty s h]
    exact hinv
  · intro hrep
    exact absurd (Flush_nonempty_state s h).2.2 hrep

theorem run_replicated_alone :
    ∀ (ops : List (Op κ)) (s : BatchBuilder κ),
      (s.msgMetadata.ReplicateTo ≠ none → s.numMessages = 1) →
      (s.run ops).msgMetadata.ReplicateTo ≠ none → (s.run ops).numMessages = 1
  | [], _, hinv => hinv
  | op :: ops, s, hinv => by
    show ((s.step op).run ops).msgMetadata.ReplicateTo ≠ none →
      ((s.step op).run ops).numMessages = 1
    apply run_replicated_alone ops (s.step op)
    cases op with
    | add c => exact addCall_replicated_alone s c hinv
    | flush => exact Flush_replicated_alone s hinv

theorem addCall_accepted_buffer (bb : BatchBuilder κ) (c : AddCall κ)
    (h : (bb.addCall c).1 = true) :
    (bb.addCall c).2.buffer = addSingleMessageToBatch bb.buffer c.metadata c.payload := by
  unfold BatchBuilder.addCall BatchBuilder.Add at h ⊢
  split_ifs at h ⊢ <;> rfl

theorem addSingleMessageToBatch_length (wb : Buffer) (smm : SingleMessageMetadata)
    (payload : List UInt8) :
    (addSingleMessageToBatch wb smm payload).data.length =
      wb.data.length + 4 + smm.Marshalled.length + payload.length := by
  simp [addSingleMessageToBatch, Buffer.Write, Buffer.WriteUint32, uint32Bytes]
  omega

theorem addCall_accepted_first_metadata (bb : BatchBuilder κ) (c : AddCall κ)
    (h : (bb.addCall c).1 = true) (h0 : bb.numMessages = 0) :
    (bb.addCall c).2.msgMetadata.SequenceId = some c.sequenceID ∧
      (bb.addCall c).2.msgMetadata.PublishTime = some (TimestampMillis c.now) ∧
      (bb.addCall c).2.msgMetadata.ProducerName = some bb.producerName ∧
      (bb.addCall c).2.msgMetadata.PartitionKey = c.metadata.PartitionKey ∧
      (bb.addCall c).2.msgMetadata.Properties = c.metadata.Properties := by
  unfold BatchBuilder.addCall BatchBuilder.Add at h ⊢
  split_ifs at h ⊢ <;> exact ⟨rfl, rfl, rfl, rfl, rfl⟩

theorem addSingleMessageToBatch_data (wb : Buffer) (smm : SingleMessageMetadata)
    (payload : List UInt8) :
    (addSingleMessageToBatch wb smm payload).data =
      wb.data ++ uint32Bytes (toUint32 smm.Marshalled.length) ++ smm.Marshalled ++ payload :=
  rfl

theorem addCall_empty_inv (s : BatchBuilder κ) (c : AddCall κ)
    (hinv : s.callbacks ≠ none ∧ (sliceElems s.callbacks = [] → s.buffer.data = [])) :
    (s.addCall c).2.callbacks ≠ none ∧
      (sliceElems (s.addCall c).2.callbacks = [] → (s.addCall c).2.buffer.data = []) := by
  cases hc : (s.addCall c).1 with
  | false =>
    rw [addCall_rejected s c hc]
    exact hinv
  | true =>
    rw [addCall_accepted_callbacks s c hc]
    refine ⟨by simp [sliceAppend], fun h => ?_⟩
    rw [sliceElems_sliceAppend] at h
    simp at h

theorem Flush_empty_inv (s : BatchBuilder κ)
    (hinv : s.callbacks ≠ none ∧ (sliceElems s.callbacks = [] → s.buffer.data = [])) :
    s.Flush.2.callbacks ≠ none ∧
      (sliceElems s.Flush.2.callbacks = [] → s.Flush.2.buffer.data = []) := by
  by_cases h : s.numMessages = 0
  · rw [Flush_empty s h]
    exact hinv
  · have hst := Flush_nonempty_state s h
    rw [hst.2.1]
    exact ⟨by simp, fun _ => hst.1⟩

theorem run_empty_inv :
    ∀ (ops : List (Op κ)) (s : BatchBuilder κ),
      (s.callbacks ≠ none ∧ (sliceElems s.callbacks = [] → s.buffer.data = [])) →
      (s.run ops).callbacks ≠ none ∧
        (sliceElems (s.run ops).callbacks = [] → (s.run ops).buffer.data = [])
  | [], _, hinv => hinv
  | op :: ops, s, hinv => by
    show ((s.step op).run ops).callbacks ≠ none ∧
      (sliceElems ((s.step op).run ops).callbacks = [] → ((s.step op).run ops).buffer.data = [])
    apply run_empty_inv ops (s.step op)
    cases op with
    | add c => exact addCall_empty_inv s c hinv
    | flush => exact Flush_empty_inv s hinv

/-- C1. A rejected `Add` is atomic: in every builder state and for every
argument tuple, if `Add` returns false then the builder after the call is the
builder before it, in every field. -/
theorem add_rejected_state_unchanged (bb : BatchBuilder κ) (now : Time)
    (metadata : SingleMessageMetadata) (sequenceID : Nat) (payload : List UInt8) (callback : κ)
    (replicateTo : Option (List String)) (deliverAt : Time)
    (h : (bb.Add now metadata sequenceID payload callback replicateTo deliverAt).1 = false) :
    (bb.Add now metadata sequenceID payload callback replicateTo deliverAt).2 = bb := by
  unfold BatchBuilder.Add at h ⊢
  split_ifs at h ⊢ <;> rfl

/-- Witness of C1: a batch holds one message; an `Add` with the replication
list `["clusterA"]` returns false and leaves the builder as it was. -/
theorem add_rejected_state_unchanged_witness :
    (((exampleBuilder 3 100).run [.add (exampleCall 5 1 none)]).Add ⟨2000000⟩ exampleMetadata 6
        [1, 2, 3] 2 (some ["clusterA"]) ⟨0⟩).1 = false ∧
      (((exampleBuilder 3 100).run [.add (exampleCall 5 1 none)]).Add ⟨2000000⟩ exampleMetadata 6
        [1, 2, 3] 2 (some ["clusterA"]) ⟨0⟩).2 =
        (exampleBuilder 3 100).run [.add (exampleCall 5 1 none)] :=
  ⟨by decide,
    add_rejected_state_unchanged ((exampleBuilder 3 100).run [.add (exampleCall 5 1 none)])
      ⟨2000000⟩ exampleMetadata 6 [1, 2, 3] 2 (some ["clusterA"]) ⟨0⟩ (by decide)⟩

/-- C2. Sequence stability: on a builder made by `NewBatchBuilder`, after any
history of calls that is empty or ends with a `Flush`, and after any sequence of
fewer than 2^64 `Add` calls (accepted or rejected), of which at least one is
accepted, `Flush` returns as sequence ID the `sequenceID` argument of the first
accepted call. -/
theorem flush_sequenceID_first_accepted (maxMessages maxBatchSize : Nat) (producerName : String)
    (producerID : Nat) (compressionType : CompressionType) (level : Level)
    (bufferPool : BuffersPool) (bb : BatchBuilder κ) (err : Option String)
    (hnew : NewBatchBuilder maxMessages maxBatchSize producerName producerID compressionType
      level bufferPool = .returned (bb, err))
    (history : List (Op κ)) (hstart : batchStart history = true)
    (calls : List (AddCall κ)) (hlen : calls.length < uintRange)
    (first : AddCall κ) (rest : List (AddCall κ))
    (hacc : (bb.run history).accepted calls = first :: rest) :
    (((bb.run history).addAll calls).Flush).1.sequenceID = first.sequenceID := by
  have h0 : (bb.run history).numMessages = 0 :=
    run_batchStart history bb (NewBatchBuilder_returned _ _ _ _ _ _ _ bb err hnew).1 hstart
  have key := addAll_first_cmdSend calls (bb.run history) first rest h0 hlen hacc
  rw [(Flush_nonempty_result _ key.2).1, CommandSend.GetSequenceId, key.1]
  rfl

/-- Witness of C2: sequence IDs 5, 6, 7 added to a fresh builder, then a
flush, yield 5. -/
theorem flush_sequenceID_first_accepted_witness :
    (((exampleBuilder 3 100).run []).addAll
      [exampleCall 5 1 none, exampleCall 6 2 none, exampleCall 7 3 none]).Flush.1.sequenceID = 5 :=
  flush_sequenceID_first_accepted 3 100 "p" 7 .NONE 0 ⟨[], 0⟩ (exampleBuilder 3 100) none rfl []
    rfl [exampleCall 5 1 none, exampleCall 6 2 none, exampleCall 7 3 none]
    (by unfold uintRange; norm_num) (exampleCall 5 1 none)
    [exampleCall 6 2 none, exampleCall 7 3 none] (by decide)

/-- C3. Callback ordering: on a builder made by `NewBatchBuilder`, after any
history of calls that is empty or ends with a `Flush`, and after any sequence of
`Add` calls (fewer than 2^64 calls in all), the callbacks `Flush` returns are
exactly the `callback` arguments of the accepted `Add` calls of that sequence,
in call order: none of a rejected call, none of an earlier batch. -/
theorem flush_callbacks_accepted_order (maxMessages maxBatchSize : Nat) (producerName : String)
    (producerID : Nat) (compressionType : CompressionType) (level : Level)
    (bufferPool : BuffersPool) (bb : BatchBuilder κ) (err : Option String)
    (hnew : NewBatchBuilder maxMessages maxBatchSize producerName producerID compressionType
      level bufferPool = .returned (bb, err))
    (history : List (Op κ)) (hstart : batchStart history = true)
    (calls : List (AddCall κ)) (hlen : history.length + calls.length < uintRange) :
    sliceElems (((bb.run history).addAll calls).Flush).1.callbacks =
      ((bb.run history).accepted calls).map (fun c => c.callback) := by
  have hbb := NewBatchBuilder_returned _ _ _ _ _ _ _ bb err hnew
  have hbb0 : bb.numMessages = (sliceElems bb.callbacks).length := by
    rw [hbb.1, hbb.2.1]; rfl
  have hbblen : (sliceElems bb.callbacks).length = 0 := by rw [hbb.2.1]; rfl
  have hrun := run_count history bb hbb0 (by omega)
  have h0 : (bb.run history).numMessages = 0 := run_batchStart history bb hbb.1 hstart
  have hnil : sliceElems (bb.run history).callbacks = [] :=
    List.length_eq_zero.mp (hrun.1 ▸ h0)
  have key := addAll_callbacks calls (bb.run history) hrun.1 (by rw [hnil]; simp; omega)
  rw [hnil, List.nil_append] at key
  by_cases hz : ((bb.run history).addAll calls).numMessages = 0
  · rw [Flush_empty _ hz]
    have : sliceElems ((bb.run history).addAll calls).callbacks = [] :=
      List.length_eq_zero.mp (key.2 ▸ hz)
    rw [← key.1, this]
    rfl
  · rw [(Flush_nonempty_result _ hz).2, key.1]

/-- Witness of C3: after a first batch with callback 9, the callbacks 1, 2, 3
are added, the call with callback 2 being rejected; the flush returns 1, 3. -/
theorem flush_callbacks_accepted_order_witness :
    sliceElems (((exampleBuilder 3 100).run [.add (exampleCall 4 9 none), .flush]).addAll
      [exampleCall 5 1 none, exampleCall 6 2 (some ["clusterA"]),
        exampleCall 7 3 none]).Flush.1.callbacks = [1, 3] :=
  (flush_callbacks_accepted_order 3 100 "p" 7 .NONE 0 ⟨[], 0⟩ (exampleBuilder 3 100) none rfl
    [.add (exampleCall 4 9 none), .flush] rfl
    [exampleCall 5 1 none, exampleCall 6 2 (some ["clusterA"]), exampleCall 7 3 none]
    (by unfold uintRange; norm_num)).trans (by decide)

/-- C4, as stated, fails. A batch holds one message and no replication list, and
the size rule does not trigger. An `Add` with a zero-length, non-nil replication
list returns false, although the list is not non-empty and the batch carries no
non-empty list. And a zero-length, non-nil list accepted into an empty batch
blocks the next message. -/
theorem add_empty_replicateTo_counterexample :
    ((exampleBuilder 3 100).run [.add (exampleCall 5 1 none)]).hasSpace [] = false ∧
      ¬ ((((exampleBuilder 3 100).run [.add (exampleCall 5 1 none)]).addCall
            (exampleCall 6 2 (some []))).1 = false ↔
          ((0 < (sliceElems (some ([] : List String))).length ∧
              1 ≤ ((exampleBuilder 3 100).run [.add (exampleCall 5 1 none)]).numMessages) ∨
            0 < (sliceElems ((exampleBuilder 3 100).run
              [.add (exampleCall 5 1 none)]).msgMetadata.ReplicateTo).length)) ∧
      ((exampleBuilder 3 100).addCall (exampleCall 5 1 (some []))).1 = true ∧
      (((exampleBuilder 3 100).addCall (exampleCall 5 1 (some []))).2.addCall
        (exampleCall 6 2 none)).1 = false := by
  decide

/-- C4, amended. In every builder state and for every `Add` call for which the
size rule does not trigger, `Add` returns false if and only if (1) the supplied
`replicateTo` is non-nil and the batch already holds at least one message, or
(2) the batch metadata already carries a non-nil replication list. With a nil
`replicateTo`, `Add` returns false only under (2), and an accepted `Add` leaves
the batch metadata without replication list. -/
theorem add_rejected_iff_replication (bb : BatchBuilder κ) (now : Time)
    (metadata : SingleMessageMetadata) (sequenceID : Nat) (payload : List UInt8) (callback : κ)
    (replicateTo : Option (List String)) (deliverAt : Time)
    (hsize : bb.hasSpace payload = false) :
    ((bb.Add now metadata sequenceID payload callback replicateTo deliverAt).1 = false ↔
        (replicateTo ≠ none ∧ bb.numMessages ≠ 0) ∨ bb.msgMetadata.ReplicateTo ≠ none) ∧
      (replicateTo = none →
        ((bb.Add now metadata sequenceID payload callback replicateTo deliverAt).1 = false ↔
            bb.msgMetadata.ReplicateTo ≠ none) ∧
          ((bb.Add now metadata sequenceID payload callback replicateTo deliverAt).1 = true →
            (bb.Add now metadata sequenceID payload callback replicateTo
              deliverAt).2.msgMetadata.ReplicateTo = none)) := by
  unfold BatchBuilder.Add
  cases hr : replicateTo <;> cases hm : bb.msgMetadata.ReplicateTo <;>
    by_cases h0 : bb.numMessages = 0 <;> simp [hsize, hm, h0]

/-- Witness of C4, amended: a batch holds one message and no replication list;
a message with a nil replication list and a small payload is accepted. -/
theorem add_rejected_iff_replication_witness :
    ((((exampleBuilder 3 100).run [.add (exampleCall 5 1 none)]).Add ⟨2000000⟩ exampleMetadata 6
          [1, 2, 3] 2 none ⟨0⟩).1 = false ↔
        ((none : Option (List String)) ≠ none ∧
            ((exampleBuilder 3 100).run [.add (exampleCall 5 1 none)]).numMessages ≠ 0) ∨
          ((exampleBuilder 3 100).run
            [.add (exampleCall 5 1 none)]).msgMetadata.ReplicateTo ≠ none) :=
  (add_rejected_iff_replication ((exampleBuilder 3 100).run [.add (exampleCall 5 1 none)])
    ⟨2000000⟩ exampleMetadata 6 [1, 2, 3] 2 none ⟨0⟩ (by decide)).1

/-- C5 fails on the code. The builder is made with `maxBatchSize = 2^32`; one
message is staged (6 readable bytes) and the batch carries no replication list.
An `Add` with a nil replication list and an empty payload returns false,
although 6 + 0 is not greater than 2^32: the limit is compared after the
conversion `uint32(maxBatchSize)`, which is 0. -/
theorem add_size_rule_truncates_limit :
    ((exampleBuilder 1000 4294967296).run [.add (exampleCall 5 1 none)]).numMessages = 1 ∧
      ((exampleBuilder 1000 4294967296).run
        [.add (exampleCall 5 1 none)]).msgMetadata.ReplicateTo = none ∧
      ((exampleBuilder 1000 4294967296).run [.add (exampleCall 5 1 none)]).buffer.data.length +
          (exampleCall 6 2 none).payload.length = 6 ∧
      ((exampleBuilder 1000 4294967296).run [.add (exampleCall 5 1 none)]).maxBatchSize =
        4294967296 ∧
      (((exampleBuilder 1000 4294967296).run [.add (exampleCall 5 1 none)]).addCall
        (exampleCall 6 2 none)).1 = false := by
  decide

/-- C6. Forward progress: in every state reached from `NewBatchBuilder` by `Add`
and `Flush` calls in which `numMessages` is 0, `Add` returns true for every
payload (also one longer than `maxBatchSize`) and every replication list (nil or
not), and afterwards `numMessages` is 1 and the message is staged: the staged
buffer has gained the 4-byte length of the marshalled header, the marshalled
header and the payload, the callbacks list has gained the callback, and the
batch metadata and the send command are stamped from the message. When the
history has fewer than 2^64 calls the batch was empty in every respect, so the
staged buffer holds exactly this message and the callbacks list exactly this
callback. -/
theorem add_on_empty_batch_accepted (maxMessages maxBatchSize : Nat) (producerName : String)
    (producerID : Nat) (compressionType : CompressionType) (level : Level)
    (bufferPool : BuffersPool) (bb : BatchBuilder κ) (err : Option String)
    (hnew : NewBatchBuilder maxMessages maxBatchSize producerName producerID compressionType
      level bufferPool = .returned (bb, err))
    (history : List (Op κ)) (hempty : (bb.run history).numMessages = 0) (now : Time)
    (metadata : SingleMessageMetadata) (sequenceID : Nat) (payload : List UInt8) (callback : κ)
    (replicateTo : Option (List String)) (deliverAt : Time) :
    ((bb.run history).Add now metadata sequenceID payload callback replicateTo deliverAt).1 =
        true ∧
      ((bb.run history).Add now metadata sequenceID payload callback replicateTo
        deliverAt).2.numMessages = 1 ∧
      ((bb.run history).Add now metadata sequenceID payload callback replicateTo
          deliverAt).2.buffer.data =
        (bb.run history).buffer.data ++ uint32Bytes (toUint32 metadata.Marshalled.length) ++
          metadata.Marshalled ++ payload ∧
      ((bb.run history).Add now metadata sequenceID payload callback replicateTo
          deliverAt).2.callbacks =
        some (sliceElems (bb.run history).callbacks ++ [callback]) ∧
      ((bb.run history).Add now metadata sequenceID payload callback replicateTo
        deliverAt).2.msgMetadata.SequenceId = some sequenceID ∧
      ((bb.run history).Add now metadata sequenceID payload callback replicateTo
        deliverAt).2.cmdSend.Send.SequenceId = some sequenceID ∧
      ((bb.run history).Add now metadata sequenceID payload callback replicateTo
        deliverAt).2.msgMetadata.ReplicateTo = replicateTo ∧
      ((bb.run history).Add now metadata sequenceID payload callback replicateTo
        deliverAt).2.msgMetadata.PartitionKey = metadata.PartitionKey ∧
      ((bb.run history).Add now metadata sequenceID payload callback replicateTo
        deliverAt).2.msgMetadata.Properties = metadata.Properties ∧
      (history.length < uintRange →
        ((bb.run history).Add now metadata sequenceID payload callback replicateTo
            deliverAt).2.buffer.data =
          uint32Bytes (toUint32 metadata.Marshalled.length) ++ metadata.Marshalled ++ payload ∧
        ((bb.run history).Add now metadata sequenceID payload callback replicateTo
          deliverAt).2.callbacks = some [callback]) := by
  have hbb := NewBatchBuilder_returned _ _ _ _ _ _ _ bb err hnew
  have hrep := run_replicate_inv history bb (fun _ => hbb.2.2.1) hempty
  have hacc : ((bb.run history).addCall
      ⟨now, metadata, sequenceID, payload, callback, replicateTo, deliverAt⟩).1 = true := by
    rw [addCall_accepted_iff]
    refine ⟨fun h => h.2 hempty, ?_, hasSpace_empty _ _ hempty⟩
    rw [hrep]
    rfl
  have hn := addCall_accepted_numMessages _ _ hacc
  rw [hempty, Nat.zero_add, Nat.mod_eq_of_lt one_lt_uintRange] at hn
  have hbuf := addCall_accepted_buffer _ _ hacc
  have hdata : ((bb.run history).addCall
      ⟨now, metadata, sequenceID, payload, callback, replicateTo, deliverAt⟩).2.buffer.data =
      (bb.run history).buffer.data ++ uint32Bytes (toUint32 metadata.Marshalled.length) ++
        metadata.Marshalled ++ payload := by
    rw [hbuf]
    rfl
  have hcb : ((bb.run history).addCall
      ⟨now, metadata, sequenceID, payload, callback, replicateTo, deliverAt⟩).2.callbacks =
      some (sliceElems (bb.run history).callbacks ++ [callback]) :=
    addCall_accepted_callbacks _ _ hacc
  have hmd := addCall_accepted_first_metadata _ _ hacc hempty
  refine ⟨hacc, hn, hdata, hcb, hmd.1, addCall_accepted_first_cmdSend _ _ hacc hempty,
    addCall_accepted_first_replicateTo _ _ hacc hempty, hmd.2.2.2.1, hmd.2.2.2.2,
    fun hlen => ?_⟩
  have hbb0 : bb.numMessages = (sliceElems bb.callbacks).length := by
    rw [hbb.1, hbb.2.1]; rfl
  have hbblen : (sliceElems bb.callbacks).length = 0 := by rw [hbb.2.1]; rfl
  have hrun := run_count history bb hbb0 (by omega)
  have hnil : sliceElems (bb.run history).callbacks = [] :=
    List.length_eq_zero.mp (hrun.1 ▸ hempty)
  have hinv := run_empty_inv history bb
    ⟨by rw [hbb.2.1]; simp, fun _ => hbb.2.2.2.1⟩
  refine ⟨?_, ?_⟩
  · show ((bb.run history).addCall
      ⟨now, metadata, sequenceID, payload, callback, replicateTo, deliverAt⟩).2.buffer.data = _
    rw [hdata, hinv.2 hnil, List.nil_append]
  · show ((bb.run history).addCall
      ⟨now, metadata, sequenceID, payload, callback, replicateTo, deliverAt⟩).2.callbacks = _
    rw [hcb, hnil, List.nil_append]

/-- Witness of C6: right after a flush, with `maxBatchSize = 2`, a payload of
three bytes with a replication list is accepted; the staged buffer then holds
the length 2 of the marshalled header, the header and the payload, and the
callbacks list holds the callback. -/
theorem add_on_empty_batch_accepted_witness :
    (((exampleBuilder 3 2).run [.add (exampleCall 5 1 none), .flush]).Add ⟨2000000⟩
        exampleMetadata 6 [1, 2, 3] 2 (some ["clusterA"]) ⟨0⟩).1 = true ∧
      (((exampleBuilder 3 2).run [.add (exampleCall 5 1 none), .flush]).Add ⟨2000000⟩
        exampleMetadata 6 [1, 2, 3] 2 (some ["clusterA"]) ⟨0⟩).2.numMessages = 1 ∧
      (((exampleBuilder 3 2).run [.add (exampleCall 5 1 none), .flush]).Add ⟨2000000⟩
        exampleMetadata 6 [1, 2, 3] 2 (some ["clusterA"]) ⟨0⟩).2.buffer.data =
        [0, 0, 0, 2, 24, 0, 1, 2, 3] ∧
      (((exampleBuilder 3 2).run [.add (exampleCall 5 1 none), .flush]).Add ⟨2000000⟩
        exampleMetadata 6 [1, 2, 3] 2 (some ["clusterA"]) ⟨0⟩).2.callbacks = some [2] :=
  ⟨(add_on_empty_batch_accepted 3 2 "p" 7 .NONE 0 ⟨[], 0⟩ (exampleBuilder 3 2) none rfl
      [.add (exampleCall 5 1 none), .flush] (by decide) ⟨2000000⟩ exampleMetadata 6 [1, 2, 3] 2
      (some ["clusterA"]) ⟨0⟩).1,
    (add_on_empty_batch_accepted 3 2 "p" 7 .NONE 0 ⟨[], 0⟩ (exampleBuilder 3 2) none rfl
      [.add (exampleCall 5 1 none), .flush] (by decide) ⟨2000000⟩ exampleMetadata 6 [1, 2, 3] 2
      (some ["clusterA"]) ⟨0⟩).2.1,
    ((add_on_empty_batch_accepted 3 2 "p" 7 .NONE 0 ⟨[], 0⟩ (exampleBuilder 3 2) none rfl
      [.add (exampleCall 5 1 none), .flush] (by decide) ⟨2000000⟩ exampleMetadata 6 [1, 2, 3] 2
      (some ["clusterA"]) ⟨0⟩).2.2.2.2.2.2.2.2.2 (by unfold uintRange; norm_num)).1.trans
      (by decide),
    ((add_on_empty_batch_accepted 3 2 "p" 7 .NONE 0 ⟨[], 0⟩ (exampleBuilder 3 2) none rfl
      [.add (exampleCall 5 1 none), .flush] (by decide) ⟨2000000⟩ exampleMetadata 6 [1, 2, 3] 2
      (some ["clusterA"]) ⟨0⟩).2.2.2.2.2.2.2.2.2 (by unfold uintRange; norm_num)).2⟩

/-- C7. Replication exclusivity: in every state reached from `NewBatchBuilder`
by `Add` and `Flush` calls in which the batch is empty, an `Add` with a non-nil
replication list (so with every non-empty list, such as `["clusterA"]`) returns
true, and after it every `Add` of every further sequence of `Add` calls, with
any arguments, returns false. -/
theorem replicated_message_blocks_batch (maxMessages maxBatchSize : Nat) (producerName : String)
    (producerID : Nat) (compressionType : CompressionType) (level : Level)
    (bufferPool : BuffersPool) (bb : BatchBuilder κ) (err : Option String)
    (hnew : NewBatchBuilder maxMessages maxBatchSize producerName producerID compressionType
      level bufferPool = .returned (bb, err))
    (history : List (Op κ)) (hempty : (bb.run history).numMessages = 0)
    (c : AddCall κ) (hrep : c.replicateTo ≠ none) :
    ((bb.run history).addCall c).1 = true ∧
      ∀ (later : List (AddCall κ)) (next : AddCall κ),
        ((((bb.run history).addCall c).2.addAll later).addCall next).1 = false := by
  have hbb := NewBatchBuilder_returned _ _ _ _ _ _ _ bb err hnew
  have hnone := run_replicate_inv history bb (fun _ => hbb.2.2.1) hempty
  have hacc : ((bb.run history).addCall c).1 = true := by
    rw [addCall_accepted_iff]
    refine ⟨fun h => h.2 hempty, ?_, hasSpace_empty _ _ hempty⟩
    rw [hnone]
    rfl
  refine ⟨hacc, fun later next => ?_⟩
  have hset : ((bb.run history).addCall c).2.msgMetadata.ReplicateTo ≠ none := by
    rw [addCall_accepted_first_replicateTo _ c hacc hempty]
    exact hrep
  rw [addAll_blocked later _ hset]
  exact addCall_blocked _ next hset

/-- Witness of C7: on a fresh builder a message for `["clusterA"]` is accepted;
after one more call, a small message without replication list is rejected. -/
theorem replicated_message_blocks_batch_witness :
    (((exampleBuilder 3 100).run []).addCall (exampleCall 5 1 (some ["clusterA"]))).1 = true ∧
      (((((exampleBuilder 3 100).run []).addCall (exampleCall 5 1 (some ["clusterA"]))).2.addAll
        [exampleCall 6 2 (some ["clusterB"])]).addCall (exampleCall 7 3 none)).1 = false :=
  ⟨(replicated_message_blocks_batch 3 100 "p" 7 .NONE 0 ⟨[], 0⟩ (exampleBuilder 3 100) none rfl []
      (by decide) (exampleCall 5 1 (some ["clusterA"])) (by decide)).1,
    (replicated_message_blocks_batch 3 100 "p" 7 .NONE 0 ⟨[], 0⟩ (exampleBuilder 3 100) none rfl []
      (by decide) (exampleCall 5 1 (some ["clusterA"])) (by decide)).2
      [exampleCall 6 2 (some ["clusterB"])] (exampleCall 7 3 none)⟩

/-- C8 fails on the code. The builder is made with `maxMessages = 1000` and
`maxBatchSize = 2^32`; one message is staged (6 readable bytes). `IsFull`
returns true, although `numMessages` (1) is below `maxMessages` and the readable
byte count (6) is not greater than `maxBatchSize`: the limit is compared after
the conversion `uint32(maxBatchSize)`, which is 0. -/
theorem isFull_truncates_limit :
    ((exampleBuilder 1000 4294967296).run [.add (exampleCall 5 1 none)]).IsFull = true ∧
      ¬ (((exampleBuilder 1000 4294967296).run [.add (exampleCall 5 1 none)]).numMessages ≥
            ((exampleBuilder 1000 4294967296).run [.add (exampleCall 5 1 none)]).maxMessages ∨
          ((exampleBuilder 1000 4294967296).run
              [.add (exampleCall 5 1 none)]).buffer.data.length >
            ((exampleBuilder 1000 4294967296).run [.add (exampleCall 5 1 none)]).maxBatchSize) := by
  decide

/-- C9. Empty flush: in every builder state with `numMessages = 0`, `Flush`
returns (nil, 0, nil), leaves every field of the builder unchanged, makes no
`GetBuffer` call on the buffer pool, and a second `Flush` gives the same results
again. In every builder state, a `Flush` right after a `Flush` returns
(nil, 0, nil). -/
theorem flush_empty_noop (bb : BatchBuilder κ) (hempty : bb.numMessages = 0) :
    bb.Flush.1 = { batchData := none, sequenceID := 0, callbacks := none } ∧
      bb.Flush.2 = bb ∧
      bb.Flush.2.buffersPool.requests = bb.buffersPool.requests ∧
      bb.Flush.2.Flush = bb.Flush ∧
      ∀ b : BatchBuilder κ,
        b.Flush.2.Flush.1 = { batchData := none, sequenceID := 0, callbacks := none } := by
  have h := Flush_empty bb hempty
  refine ⟨by rw [h], by rw [h], by rw [h], by rw [h]; exact h, fun b => ?_⟩
  rw [Flush_empty _ (Flush_numMessages b)]

/-- Witness of C9: a fresh builder whose pool has a buffer to give; the flush
returns (nil, 0, nil) and the pool has still been asked 0 times. -/
theorem flush_empty_noop_witness :
    ({ exampleBuilder 3 100 with buffersPool := ⟨[some (NewBuffer 16)], 0⟩ }).Flush.1 =
        { batchData := none, sequenceID := 0, callbacks := none } ∧
      ({ exampleBuilder 3 100 with
        buffersPool := ⟨[some (NewBuffer 16)], 0⟩ }).Flush.2.buffersPool.requests = 0 :=
  ⟨(flush_empty_noop { exampleBuilder 3 100 with buffersPool := ⟨[some (NewBuffer 16)], 0⟩ }
      (by decide)).1,
    (flush_empty_noop { exampleBuilder 3 100 with buffersPool := ⟨[some (NewBuffer 16)], 0⟩ }
      (by decide)).2.2.1⟩

/-- C10. Reset after flush: on a builder made by `NewBatchBuilder` with any
`maxMessages` and `maxBatchSize` arguments (0 included), in every state reached
by `Add` and `Flush` calls in which the batch is not empty, after `Flush` the
builder has `numMessages = 0`, an empty staged buffer (0 readable bytes), an
empty callbacks list and no replication list, and `IsFull` returns false. -/
theorem flush_resets_batch (maxMessages maxBatchSize : Nat) (producerName : String)
    (producerID : Nat) (compressionType : CompressionType) (level : Level)
    (bufferPool : BuffersPool) (bb : BatchBuilder κ) (err : Option String)
    (hnew : NewBatchBuilder maxMessages maxBatchSize producerName producerID compressionType
      level bufferPool = .returned (bb, err))
    (history : List (Op κ)) (hne : (bb.run history).numMessages ≠ 0) :
    (bb.run history).Flush.2.numMessages = 0 ∧
      (bb.run history).Flush.2.buffer.data = [] ∧
      (bb.run history).Flush.2.buffer.ReadableBytes = 0 ∧
      (bb.run history).Flush.2.callbacks = some [] ∧
      (bb.run history).Flush.2.msgMetadata.ReplicateTo = none ∧
      (bb.run history).Flush.2.IsFull = false := by
  have hbb := NewBatchBuilder_returned _ _ _ _ _ _ _ bb err hnew
  have hst := Flush_nonempty_state (bb.run history) hne
  have hz := Flush_numMessages (bb.run history)
  have hmax : (bb.run history).Flush.2.maxMessages ≠ 0 := by
    rw [(Flush_limits _).1, (run_limits history bb).1]
    exact hbb.2.2.2.2.1
  have hread : (bb.run history).Flush.2.buffer.ReadableBytes = 0 := by
    simp [Buffer.ReadableBytes, hst.1, toUint32]
  refine ⟨hz, hst.1, hread, hst.2.1, hst.2.2, ?_⟩
  simp only [BatchBuilder.IsFull, hz, hread, Bool.or_eq_false_iff, decide_eq_false_iff_not]
  exact ⟨fun h => hmax (Nat.le_zero.mp h), Nat.not_lt_zero _⟩

/-- Witness of C10: a builder made with both limits 0 takes a message for
`["clusterA"]`; after the flush the batch is empty and the builder is not
full. -/
theorem flush_resets_batch_witness :
    ((exampleBuilder 0 0).run [.add (exampleCall 5 1 (some ["clusterA"]))]).Flush.2.numMessages =
        0 ∧
      ((exampleBuilder 0 0).run [.add (exampleCall 5 1 (some ["clusterA"]))]).Flush.2.IsFull =
        false :=
  ⟨(flush_resets_batch 0 0 "p" 7 .NONE 0 ⟨[], 0⟩ (exampleBuilder 0 0) none rfl
      [.add (exampleCall 5 1 (some ["clusterA"]))] (by decide)).1,
    (flush_resets_batch 0 0 "p" 7 .NONE 0 ⟨[], 0⟩ (exampleBuilder 0 0) none rfl
      [.add (exampleCall 5 1 (some ["clusterA"]))] (by decide)).2.2.2.2.2⟩

/-- C11. Count monotonicity: on a builder made by `NewBatchBuilder`, after any
history of calls that is empty or ends with a `Flush`, and after any sequence of
fewer than 2^64 `Add` calls, accepted and rejected ones in any order,
`numMessages` is the number of the calls that returned true; and every call of
the sequence adds exactly 1 to `numMessages` if it returns true and 0 if it
returns false. -/
theorem numMessages_counts_accepted (maxMessages maxBatchSize : Nat) (producerName : String)
    (producerID : Nat) (compressionType : CompressionType) (level : Level)
    (bufferPool : BuffersPool) (bb : BatchBuilder κ) (err : Option String)
    (hnew : NewBatchBuilder maxMessages maxBatchSize producerName producerID compressionType
      level bufferPool = .returned (bb, err))
    (history : List (Op κ)) (hstart : batchStart history = true)
    (calls : List (AddCall κ)) (hlen : calls.length < uintRange) :
    ((bb.run history).addAll calls).numMessages = ((bb.run history).accepted calls).length ∧
      ∀ (before : List (AddCall κ)) (c : AddCall κ) (after : List (AddCall κ)),
        calls = before ++ c :: after →
        (((bb.run history).addAll before).addCall c).2.numMessages =
          ((bb.run history).addAll before).numMessages +
            (if (((bb.run history).addAll before).addCall c).1 = true then 1 else 0) := by
  have h0 : (bb.run history).numMessages = 0 :=
    run_batchStart history bb (NewBatchBuilder_returned _ _ _ _ _ _ _ bb err hnew).1 hstart
  refine ⟨?_, fun before c after hsplit => ?_⟩
  · rw [addAll_numMessages calls _ (by omega), h0, Nat.zero_add]
  · have hl : before.length + 1 ≤ calls.length := by
      rw [hsplit, List.length_append, List.length_cons]; omega
    have hb := addAll_numMessages before (bb.run history) (by omega)
    have hle := accepted_length_le before (bb.run history)
    cases hc : (((bb.run history).addAll before).addCall c).1 with
    | false =>
      rw [addCall_rejected _ c hc]
      simp
    | true =>
      rw [addCall_accepted_numMessages _ c hc, Nat.mod_eq_of_lt (by omega)]
      simp

/-- Witness of C11: three calls on a fresh builder, the second one rejected;
`numMessages` is 2. -/
theorem numMessages_counts_accepted_witness :
    (((exampleBuilder 3 100).run []).addAll
      [exampleCall 5 1 none, exampleCall 6 2 (some ["clusterA"]),
        exampleCall 7 3 none]).numMessages = 2 :=
  (numMessages_counts_accepted 3 100 "p" 7 .NONE 0 ⟨[], 0⟩ (exampleBuilder 3 100) none rfl []
    rfl [exampleCall 5 1 none, exampleCall 6 2 (some ["clusterA"]), exampleCall 7 3 none]
    (by unfold uintRange; norm_num)).1.trans (by decide)

/-- C12, as stated, fails. For a compression type that is none of NONE, LZ4,
ZLIB and ZSTD, `NewBatchBuilder` panics: it returns neither a builder nor an
error result. -/
theorem newBatchBuilder_unsupported_counterexample :
    (NewBatchBuilder 1000 131072 "p" 7 (.other 4) 0 ⟨[], 0⟩ :
        GoResult (BatchBuilder Nat × Option String)) =
        .panicked "unsupported compression type" ∧
      ¬ ∃ (bb : BatchBuilder Nat) (e : String),
        NewBatchBuilder 1000 131072 "p" 7 (.other 4) 0 ⟨[], 0⟩ = .returned (bb, some e) := by
  refine ⟨rfl, ?_⟩
  rintro ⟨bb, e, h⟩
  have hp : (NewBatchBuilder 1000 131072 "p" 7 (.other 4) 0 ⟨[], 0⟩ :
      GoResult (BatchBuilder Nat × Option String)) =
      .panicked "unsupported compression type" := rfl
  rw [hp] at h
  exact GoResult.noConfusion h

/-- C12, amended. For every compression type other than NONE, LZ4, ZLIB and
ZSTD, `NewBatchBuilder` panics with the message "unsupported compression type"
and returns nothing; for each of the four supported types it returns a builder
and a nil error. -/
theorem newBatchBuilder_panics_or_returns (maxMessages maxBatchSize : Nat)
    (producerName : String) (producerID : Nat) (level : Level) (bufferPool : BuffersPool) :
    (∀ code : Int,
        (NewBatchBuilder maxMessages maxBatchSize producerName producerID (.other code) level
          bufferPool : GoResult (BatchBuilder κ × Option String)) =
          .panicked "unsupported compression type") ∧
      (∃ bb : BatchBuilder κ,
        NewBatchBuilder maxMessages maxBatchSize producerName producerID .NONE level bufferPool =
          .returned (bb, none)) ∧
      (∃ bb : BatchBuilder κ,
        NewBatchBuilder maxMessages maxBatchSize producerName producerID .LZ4 level bufferPool =
          .returned (bb, none)) ∧
      (∃ bb : BatchBuilder κ,
        NewBatchBuilder maxMessages maxBatchSize producerName producerID .ZLIB level bufferPool =
          .returned (bb, none)) ∧
      (∃ bb : BatchBuilder κ,
        NewBatchBuilder maxMessages maxBatchSize producerName producerID .ZSTD level bufferPool =
          .returned (bb, none)) :=
  ⟨fun _ => rfl, ⟨_, rfl⟩, ⟨_, rfl⟩, ⟨_, rfl⟩, ⟨_, rfl⟩⟩

/-- C13. Construction defaults: for every call of `NewBatchBuilder` with a
supported compression type, the call returns a builder and a nil error; the
builder has `maxMessages` 1000 if the argument is 0 and the argument otherwise,
`maxBatchSize` 131072 if the argument is 0 and the argument otherwise,
`numMessages = 0`, an empty callbacks list and no replication list; and
`maxMessages >= 1` and `maxBatchSize >= 1` hold for it and after every sequence
of `Add` and `Flush` calls. -/
theorem newBatchBuilder_defaults (maxMessages maxBatchSize : Nat) (producerName : String)
    (producerID : Nat) (compressionType : CompressionType) (level : Level)
    (bufferPool : BuffersPool)
    (hsupported : compressionType = .NONE ∨ compressionType = .LZ4 ∨ compressionType = .ZLIB ∨
      compressionType = .ZSTD) :
    ∃ bb : BatchBuilder κ,
      NewBatchBuilder maxMessages maxBatchSize producerName producerID compressionType level
          bufferPool = .returned (bb, none) ∧
        bb.maxMessages = (if maxMessages = 0 then 1000 else maxMessages) ∧
        bb.maxBatchSize = (if maxBatchSize = 0 then 131072 else maxBatchSize) ∧
        bb.numMessages = 0 ∧ bb.callbacks = some [] ∧ bb.msgMetadata.ReplicateTo = none ∧
        ∀ history : List (Op κ),
          1 ≤ (bb.run history).maxMessages ∧ 1 ≤ (bb.run history).maxBatchSize := by
  have hex : ∃ bb : BatchBuilder κ,
      NewBatchBuilder maxMessages maxBatchSize producerName producerID compressionType level
        bufferPool = .returned (bb, none) := by
    rcases hsupported with h | h | h | h <;> subst h <;> exact ⟨_, rfl⟩
  obtain ⟨bb, hbb⟩ := hex
  have h1 := NewBatchBuilder_returned _ _ _ _ _ _ _ bb none hbb
  have h2 := NewBatchBuilder_fields _ _ _ _ _ _ _ bb none hbb
  refine ⟨bb, hbb, h2.1, h2.2.1, h1.1, h1.2.1, h1.2.2.1, fun history => ?_⟩
  rw [(run_limits history bb).1, (run_limits history bb).2]
  exact ⟨Nat.pos_of_ne_zero h1.2.2.2.2.1, Nat.pos_of_ne_zero h1.2.2.2.2.2.1⟩

/-- Witness of C13: both limits given as 0 with the ZSTD codec; the builder has
the limits 1000 and 131072. -/
theorem newBatchBuilder_defaults_witness :
    ∃ bb : BatchBuilder Nat,
      NewBatchBuilder 0 0 "p" 7 .ZSTD 3 ⟨[], 0⟩ = .returned (bb, none) ∧
        bb.maxMessages = 1000 ∧ bb.maxBatchSize = 131072 := by
  obtain ⟨bb, h, hm, hb, _⟩ :=
    newBatchBuilder_defaults 0 0 "p" 7 .ZSTD 3 ⟨[], 0⟩ (Or.inr (Or.inr (Or.inr rfl)))
  exact ⟨bb, h, hm, hb⟩

/-- C14. Immutable limits and identity: in every builder state, `Add`, `Flush`
(empty or not) and `reset` leave `maxMessages`, `maxBatchSize`, `producerName`,
`producerID` and the producer ID of the send command as they were (`IsFull` only
reads the builder: in the embedding it returns no builder at all). So on a
builder made by `NewBatchBuilder` these five values stay the same through every
sequence of `Add` and `Flush` calls, and every flushed batch carries the
producer name and the producer ID given at construction. -/
theorem limits_and_identity_immutable (maxMessages maxBatchSize : Nat) (producerName : String)
    (producerID : Nat) (compressionType : CompressionType) (level : Level)
    (bufferPool : BuffersPool) (bb : BatchBuilder κ) (err : Option String)
    (hnew : NewBatchBuilder maxMessages maxBatchSize producerName producerID compressionType
      level bufferPool = .returned (bb, err)) :
    (∀ (s : BatchBuilder κ) (now : Time) (metadata : SingleMessageMetadata) (sequenceID : Nat)
        (payload : List UInt8) (callback : κ) (replicateTo : Option (List String))
        (deliverAt : Time),
        (s.Add now metadata sequenceID payload callback replicateTo
          deliverAt).2.limitsAndIdentity = s.limitsAndIdentity) ∧
      (∀ s : BatchBuilder κ, s.Flush.2.limitsAndIdentity = s.limitsAndIdentity) ∧
      (∀ s : BatchBuilder κ, s.reset.limitsAndIdentity = s.limitsAndIdentity) ∧
      (∀ history : List (Op κ), (bb.run history).limitsAndIdentity = bb.limitsAndIdentity) ∧
      ∀ (history : List (Op κ)) (frame : Frame),
        (bb.run history).Flush.1.batchData = some frame →
        frame.msgMetadata.ProducerName = some producerName ∧
          frame.cmdSend.Send.ProducerId = some producerID := by
  have hf := NewBatchBuilder_fields _ _ _ _ _ _ _ bb err hnew
  refine ⟨Add_limitsAndIdentity, Flush_limitsAndIdentity, fun _ => rfl,
    fun history => run_limitsAndIdentity history bb, fun history frame hframe => ?_⟩
  have hid := run_limitsAndIdentity history bb
  have hname : (bb.run history).producerName = producerName := by
    have := congrArg (fun t => t.2.2.1) hid
    exact this.trans hf.2.2.1
  have hpid : (bb.run history).cmdSend.Send.ProducerId = some producerID := by
    have := congrArg (fun t => t.2.2.2.2) hid
    exact this.trans hf.2.2.2.2.1
  have hinv := run_producerName history bb (by rw [hf.2.2.2.2.2, hf.2.2.1])
  obtain ⟨frame2, h1, h2, h3, _⟩ :=
    Flush_nonempty_frame (bb.run history) (Flush_frame_nonempty _ frame hframe)
  rw [h1] at hframe
  injection hframe with hframe
  subst hframe
  rw [h2, h3]
  exact ⟨hinv.trans (congrArg some hname), hpid⟩

/-- Witness of C14: after an `Add` and a `Flush` the builder made with the
limits 3 and 100 has the limits and the identity it was made with. -/
theorem limits_and_identity_immutable_witness :
    ((exampleBuilder 3 100).run [.add (exampleCall 5 1 none), .flush]).limitsAndIdentity =
      (3, 100, "p", 7, some 7) :=
  ((limits_and_identity_immutable 3 100 "p" 7 .NONE 0 ⟨[], 0⟩ (exampleBuilder 3 100) none
    rfl).2.2.2.1 [.add (exampleCall 5 1 none), .flush]).trans (by decide)

/-- C15 fails on the code. A builder made with `maxMessages = 1` and
`maxBatchSize = 2^32` holds one message (6 readable bytes) and no replication
list: `numMessages >= maxMessages`, `IsFull` is true and 6 + 0 is at most
`maxBatchSize`. An `Add` with a nil replication list and an empty payload
returns false and leaves `numMessages` at 1, which is not above `maxMessages`:
the limit is compared after the conversion `uint32(maxBatchSize)`, which is
0. -/
theorem add_count_gap_truncates_limit :
    ((exampleBuilder 1 4294967296).run [.add (exampleCall 5 1 none)]).numMessages ≥
        ((exampleBuilder 1 4294967296).run [.add (exampleCall 5 1 none)]).maxMessages ∧
      ((exampleBuilder 1 4294967296).run [.add (exampleCall 5 1 none)]).IsFull = true ∧
      ((exampleBuilder 1 4294967296).run
        [.add (exampleCall 5 1 none)]).msgMetadata.ReplicateTo = none ∧
      (exampleCall 6 2 none).replicateTo = none ∧
      ((exampleBuilder 1 4294967296).run [.add (exampleCall 5 1 none)]).buffer.data.length +
          (exampleCall 6 2 none).payload.length ≤
        ((exampleBuilder 1 4294967296).run [.add (exampleCall 5 1 none)]).maxBatchSize ∧
      (((exampleBuilder 1 4294967296).run [.add (exampleCall 5 1 none)]).addCall
        (exampleCall 6 2 none)).1 = false ∧
      ¬ (((exampleBuilder 1 4294967296).run [.add (exampleCall 5 1 none)]).addCall
          (exampleCall 6 2 none)).2.numMessages >
        (((exampleBuilder 1 4294967296).run [.add (exampleCall 5 1 none)]).addCall
          (exampleCall 6 2 none)).2.maxMessages := by
  decide

/-- C17. A replicated message is sent alone: in every state reached from
`NewBatchBuilder` by `Add` and `Flush` calls, if the batch metadata carries a
non-nil replication list then `numMessages = 1`, and if `numMessages = 0` then
the batch metadata carries no replication list; so every flushed batch that has
a replication list has the message count 1 in its metadata and in its send
command. -/
theorem replicated_message_sent_alone (maxMessages maxBatchSize : Nat) (producerName : String)
    (producerID : Nat) (compressionType : CompressionType) (level : Level)
    (bufferPool : BuffersPool) (bb : BatchBuilder κ) (err : Option String)
    (hnew : NewBatchBuilder maxMessages maxBatchSize producerName producerID compressionType
      level bufferPool = .returned (bb, err))
    (history : List (Op κ)) :
    ((bb.run history).msgMetadata.ReplicateTo ≠ none → (bb.run history).numMessages = 1) ∧
      ((bb.run history).numMessages = 0 → (bb.run history).msgMetadata.ReplicateTo = none) ∧
      ∀ frame : Frame, (bb.run history).Flush.1.batchData = some frame →
        frame.msgMetadata.ReplicateTo ≠ none →
        frame.msgMetadata.NumMessagesInBatch = some 1 ∧
          frame.cmdSend.Send.NumMessages = some 1 := by
  have hbb := NewBatchBuilder_returned _ _ _ _ _ _ _ bb err hnew
  have hinv := run_replicated_alone history bb (fun h => absurd hbb.2.2.1 h)
  refine ⟨hinv, run_replicate_inv history bb (fun _ => hbb.2.2.1), fun frame hframe hrep => ?_⟩
  obtain ⟨frame2, h1, h2, h3, _⟩ :=
    Flush_nonempty_frame (bb.run history) (Flush_frame_nonempty _ frame hframe)
  rw [h1] at hframe
  injection hframe with hframe
  subst hframe
  have hone : (bb.run history).numMessages = 1 := by
    apply hinv
    rw [h3] at hrep
    exact hrep
  rw [h2, h3, hone]
  exact ⟨rfl, rfl⟩

/-- Witness of C17: after a batch of two messages was flushed, a message for
`["clusterA"]` is accepted and a further message rejected; the batch holds one
message. -/
theorem replicated_message_sent_alone_witness :
    ((exampleBuilder 3 100).run
      [.add (exampleCall 4 8 none), .add (exampleCall 5 9 none), .flush,
        .add (exampleCall 6 1 (some ["clusterA"])), .add (exampleCall 7 2 none)]).numMessages =
      1 :=
  (replicated_message_sent_alone 3 100 "p" 7 .NONE 0 ⟨[], 0⟩ (exampleBuilder 3 100) none rfl
    [.add (exampleCall 4 8 none), .add (exampleCall 5 9 none), .flush,
      .add (exampleCall 6 1 (some ["clusterA"])), .add (exampleCall 7 2 none)]).1 (by decide)

/-- C18 fails on the code. The first message of a first batch has a delivery
time of 5 seconds after the epoch; the batch is flushed; the first message of
the next batch (sequence ID 6) has no positive delivery time. Right after that
`Add` the batch metadata has the sequence ID 6 of the new message, but its
`DeliverAtTime` is still the 5000 ms stamped by the previous batch: `Add` writes
the field only for a positive time and `reset` does not clear it. -/
theorem deliverAtTime_survives_flush :
    ((exampleBuilder 3 100).run
        [.add { exampleCall 5 1 none with deliverAt := ⟨5000000000⟩ }, .flush,
          .add (exampleCall 6 2 none)]).numMessages = 1 ∧
      ((exampleBuilder 3 100).run
        [.add { exampleCall 5 1 none with deliverAt := ⟨5000000000⟩ }, .flush,
          .add (exampleCall 6 2 none)]).msgMetadata.SequenceId = some 6 ∧
      ¬ (exampleCall 6 2 none).deliverAt.unixNano > 0 ∧
      ((exampleBuilder 3 100).run
        [.add { exampleCall 5 1 none with deliverAt := ⟨5000000000⟩ }, .flush,
          .add (exampleCall 6 2 none)]).msgMetadata.DeliverAtTime = some 5000 := by
  decide

/-- C19, as stated, fails. A builder made with `maxBatchSize = 10` holds one
message (6 readable bytes); an `Add` with a payload of 4 bytes is accepted,
since 6 + 4 is not above 10, and the batch of two messages then has 16
readable bytes, above `maxBatchSize`. -/
theorem batch_size_limit_counterexample :
    (((exampleBuilder 3 10).run [.add (exampleCall 5 1 none)]).addCall
        { exampleCall 6 2 none with payload := [1, 2, 3, 4] }).1 = true ∧
      ((exampleBuilder 3 10).run
        [.add (exampleCall 5 1 none),
          .add { exampleCall 6 2 none with payload := [1, 2, 3, 4] }]).numMessages = 2 ∧
      ((exampleBuilder 3 10).run
        [.add (exampleCall 5 1 none),
          .add { exampleCall 6 2 none with payload := [1, 2, 3, 4] }]).buffer.ReadableBytes =
        16 ∧
      ¬ ((exampleBuilder 3 10).run
          [.add (exampleCall 5 1 none),
            .add { exampleCall 6 2 none with payload := [1, 2, 3, 4] }]).buffer.ReadableBytes ≤
        ((exampleBuilder 3 10).run
          [.add (exampleCall 5 1 none),
            .add { exampleCall 6 2 none with payload := [1, 2, 3, 4] }]).maxBatchSize := by
  decide

/-- C19, amended. In every builder state with a non-empty batch, with
`maxBatchSize` and the byte counts below 2^32: `Add` rejects whenever the
staged byte count plus the payload length is above `maxBatchSize`; the
per-message header is not counted, so an accepted `Add` leaves the staged byte
count at the count before plus 4 plus the length of the marshalled header plus
the payload length, which is at most `maxBatchSize` plus 4 plus the length of
the marshalled header. -/
theorem add_size_rule_counts_payload_only (bb : BatchBuilder κ) (c : AddCall κ)
    (hne : bb.numMessages ≠ 0) (hmax : bb.maxBatchSize < uint32Range)
    (hfit : bb.buffer.data.length + c.payload.length < uint32Range) :
    (bb.buffer.data.length + c.payload.length > bb.maxBatchSize → (bb.addCall c).1 = false) ∧
      ((bb.addCall c).1 = true →
        (bb.addCall c).2.buffer.data.length =
            bb.buffer.data.length + 4 + c.metadata.Marshalled.length + c.payload.length ∧
          (bb.addCall c).2.buffer.data.length ≤
            bb.maxBatchSize + 4 + c.metadata.Marshalled.length) := by
  have hspace : bb.hasSpace c.payload = true ↔
      bb.buffer.data.length + c.payload.length > bb.maxBatchSize := by
    have h1 : bb.buffer.data.length % uint32Range = bb.buffer.data.length :=
      Nat.mod_eq_of_lt (by omega)
    have h2 : c.payload.length % uint32Range = c.payload.length :=
      Nat.mod_eq_of_lt (by omega)
    have h3 : (bb.buffer.data.length + c.payload.length) % uint32Range =
        bb.buffer.data.length + c.payload.length := Nat.mod_eq_of_lt hfit
    have h4 : bb.maxBatchSize % uint32Range = bb.maxBatchSize := Nat.mod_eq_of_lt hmax
    simp only [BatchBuilder.hasSpace, Buffer.ReadableBytes, toUint32, h1, h2, h3, h4,
      Bool.and_eq_true, decide_eq_true_eq]
    exact ⟨fun h => h.2, fun h => ⟨Nat.pos_of_ne_zero hne, h⟩⟩
  constructor
  · intro hover
    cases hc : (bb.addCall c).1 with
    | false => rfl
    | true =>
      have := ((addCall_accepted_iff bb c).mp hc).2.2
      rw [hspace.mpr hover] at this
      exact absurd this (by simp)
  · intro hc
    have hno := ((addCall_accepted_iff bb c).mp hc).2.2
    have hle : ¬ bb.buffer.data.length + c.payload.length > bb.maxBatchSize := by
      intro hover
      rw [hspace.mpr hover] at hno
      exact absurd hno (by simp)
    rw [addCall_accepted_buffer bb c hc, addSingleMessageToBatch_length]
    exact ⟨rfl, by omega⟩

/-- Witness of C19, amended: with `maxBatchSize = 10` and 6 staged bytes, a
payload of 5 bytes is rejected. -/
theorem add_size_rule_counts_payload_only_witness :
    (((exampleBuilder 3 10).run [.add (exampleCall 5 1 none)]).addCall
      { exampleCall 6 2 none with payload := [1, 2, 3, 4, 5] }).1 = false :=
  (add_size_rule_counts_payload_only ((exampleBuilder 3 10).run [.add (exampleCall 5 1 none)])
    { exampleCall 6 2 none with payload := [1, 2, 3, 4, 5] } (by decide) (by decide)
    (by decide)).1 (by decide)

end Pulsar
